import Mathlib

/-!
# openauto: liveness watchdog, connection supervisor and channel services

A shallow embedding of `src/src/autoapp/Service/Pinger.cpp`,
`src/src/autoapp/App.cpp`, and of `VideoService.cpp`, `AudioInputService.cpp`
and `BluetoothService.cpp` in `src/src/autoapp/Service`.

Every member function body that the source posts to the strand of its object
is one atomic state transformer here: the strand serialises the bodies, so a
run of the object is a sequence of such transformers.  Calls made on
collaborators (promises, the timer, the USB hub, the accessory enumerator, the
entity factory, the session entity, the TCP wrapper, the logger) are appended,
in program order, to a `trace` carried in the state.
-/

namespace OpenAuto

/-! ## Error values of the transport library -/

/-- Error codes of the transport library that the sources under study name,
plus every other code. -/
inductive ErrorCode where
  | NONE
  | OPERATION_ABORTED
  | OPERATION_IN_PROGRESS
  | OTHER (n : Nat)
  deriving DecidableEq, Repr

/-- An error value: a code and a native code. -/
structure Error where
  code : ErrorCode
  nativeCode : Nat
  deriving DecidableEq, Repr

namespace Error

/-- Default construction, `aasdk::error::Error()`. -/
def default : Error := ⟨ErrorCode.NONE, 0⟩

/-- Construction from a code, `aasdk::error::Error(code)`. -/
def ofCode (c : ErrorCode) : Error := ⟨c, 0⟩

/-- Comparison of an error with a code, `error != code`. -/
def neCode (e : Error) (c : ErrorCode) : Bool := decide (e.code ≠ c)

end Error

/-- Completion status handed to a timer callback, `asio::error_code`. -/
inductive AsioError where
  | success
  | operation_aborted
  | other (n : Nat)
  deriving DecidableEq, Repr

/-! ## Pinger -/

namespace Pinger

/-- Identity of a promise object handed to `ping`. -/
abbrev Promise := Nat

/-- Calls the watchdog makes on its collaborators. -/
inductive Action where
  | resolve (p : Promise)
  | reject (p : Promise) (e : Error)
  | timerExpiresFromNow
  | timerAsyncWait
  | timerCancel
  deriving DecidableEq, Repr

/-- Modelled from the spec: the member declarations of `Pinger` are in
`Pinger.hpp`, which is not among the sources; the heartbeat cycle has a count
of pings issued, a count of pongs observed, at most one outstanding request and
a cancellation flag.  The names are those the method bodies use, the counts are
integers, and the trace of collaborator calls is added. -/
structure State where
  cancelled_ : Bool
  promise_ : Option Promise
  pingsCount_ : Int
  pongsCount_ : Int
  trace : List Action
  deriving DecidableEq, Repr

/-- Constructor: `cancelled_(false), pingsCount_(0), pongsCount_(0)`. -/
def init : State := ⟨false, none, 0, 0, []⟩

/-- Body of `Pinger::ping`. -/
def ping (promise : Promise) (s : State) : State :=
  let s1 := { s with cancelled_ := false }
  match s1.promise_ with
  | some stored =>
    { s1 with trace := s1.trace ++
        [Action.reject stored (Error.ofCode ErrorCode.OPERATION_IN_PROGRESS)] }
  | none =>
    { s1 with
      pingsCount_ := s1.pingsCount_ + 1
      promise_ := some promise
      trace := s1.trace ++ [Action.timerExpiresFromNow, Action.timerAsyncWait] }

/-- Body of `Pinger::pong`. -/
def pong (s : State) : State :=
  { s with pongsCount_ := s.pongsCount_ + 1 }

/-- Body of `Pinger::onTimerExceeded`. -/
def onTimerExceeded (error : AsioError) (s : State) : State :=
  match s.promise_ with
  | none => s
  | some stored =>
    let s1 :=
      if error = AsioError.operation_aborted ∨ s.cancelled_ = true then
        { s with trace := s.trace ++
            [Action.reject stored (Error.ofCode ErrorCode.OPERATION_ABORTED)] }
      else if s.pingsCount_ - s.pongsCount_ > 1 then
        { s with trace := s.trace ++ [Action.reject stored Error.default] }
      else
        { s with trace := s.trace ++ [Action.resolve stored] }
    { s1 with promise_ := none }

/-- Body of `Pinger::cancel`. -/
def cancel (s : State) : State :=
  { s with cancelled_ := true, trace := s.trace ++ [Action.timerCancel] }

/-- The settlements (resolve or reject) that a trace records for promise `p`. -/
def settlements (p : Promise) (tr : List Action) : List Action :=
  tr.filter fun a =>
    match a with
    | Action.resolve q => decide (q = p)
    | Action.reject q _ => decide (q = p)
    | _ => false

end Pinger

/-! ## App -/

namespace App

/-- Identity of a TCP socket handed to `start`. -/
abbrev Socket := Nat

/-- Identity of a USB device handle delivered by the hub. -/
abbrev DeviceHandle := Nat

/-- Identity of a session entity produced by the factory. -/
abbrev Entity := Nat

/-- The transport object a session is built on. -/
inductive Transport where
  | tcpEndpoint (socket : Socket)
  | aoapDevice (deviceHandle : DeviceHandle)
  deriving DecidableEq, Repr

/-- The log lines of `App.cpp`. -/
inductive LogMsg where
  | entityStillRunning
  | tcpCreateError
  | deviceConnected
  | usbCreateError
  | enumerationResult
  | enumerationFailed
  | waitingForDevice
  | quit
  | usbHubError
  deriving DecidableEq, Repr

/-- Calls the supervisor makes on its collaborators. -/
inductive Action where
  | usbHubStart
  | usbHubCancel
  | enumeratorEnumerate
  | enumeratorCancel
  | tcpClose (socket : Socket)
  | makeTransport (t : Transport)
  | factoryCreate (t : Transport)
  | entityStart (e : Entity)
  | entityStop (e : Entity)
  | log (m : LogMsg)
  deriving DecidableEq, Repr

/-- What the collaborators do during one session construction: the transport
constructor throws, the factory throws, the entity is created and its `start`
throws, or all three calls return. -/
inductive Build where
  | transportThrows (error : Error)
  | createThrows (error : Error)
  | startThrows (e : Entity) (error : Error)
  | ok (e : Entity)
  deriving DecidableEq, Repr

/-- Whether a construction ends in the `catch` clause. -/
def Build.fails : Build → Bool
  | Build.ok _ => false
  | _ => true

/-- Modelled from the spec: the member declarations of `App` are in `App.hpp`,
which is not among the sources; the supervisor owns at most one session and a
stopped flag.  The names are those the method bodies assign, and the trace of
collaborator calls is added. -/
structure State where
  androidAutoEntity_ : Option Entity
  isStopped_ : Bool
  trace : List Action
  deriving DecidableEq, Repr

/-- Constructor: no entity, `isStopped_(false)`. -/
def init : State := ⟨none, false, []⟩

/-- Append collaborator calls to the trace. -/
def emit (as : List Action) (s : State) : State :=
  { s with trace := s.trace ++ as }

/-- Body of `App::waitForDevice`: log, then `usbHub_->start(promise)`. -/
def waitForDevice (s : State) : State :=
  emit [Action.log LogMsg.waitingForDevice, Action.usbHubStart] s

/-- Body of `App::enumerateDevices`:
`connectedAccessoriesEnumerator_->enumerate(promise)`. -/
def enumerateDevices (s : State) : State :=
  emit [Action.enumeratorEnumerate] s

/-- Body of `App::waitForUSBDevice`. -/
def waitForUSBDevice (s : State) : State :=
  enumerateDevices (waitForDevice s)

/-- The `catch` clause shared by `start` and `aoapDeviceHandler`: log, reset
the entity, `waitForDevice()`. -/
def catchCreateError (m : LogMsg) (s : State) : State :=
  waitForDevice { emit [Action.log m] s with androidAutoEntity_ := none }

/-- The statements of the `try` block after the cancellations, followed by the
`catch` clause when one of them throws: build the transport, assign
`androidAutoEntity_` from the factory, start the entity. -/
def createEntity (t : Transport) (b : Build) (m : LogMsg) (s : State) : State :=
  match b with
  | Build.transportThrows _ =>
    catchCreateError m (emit [Action.makeTransport t] s)
  | Build.createThrows _ =>
    catchCreateError m (emit [Action.makeTransport t, Action.factoryCreate t] s)
  | Build.startThrows e _ =>
    catchCreateError m
      { emit [Action.makeTransport t, Action.factoryCreate t, Action.entityStart e] s with
        androidAutoEntity_ := some e }
  | Build.ok e =>
    { emit [Action.makeTransport t, Action.factoryCreate t, Action.entityStart e] s with
      androidAutoEntity_ := some e }

/-- Body of `App::start`. -/
def start (socket : Socket) (b : Build) (s : State) : State :=
  match s.androidAutoEntity_ with
  | some _ =>
    emit [Action.tcpClose socket, Action.log LogMsg.entityStillRunning] s
  | none =>
    createEntity (Transport.tcpEndpoint socket) b LogMsg.tcpCreateError
      (emit [Action.usbHubCancel, Action.enumeratorCancel] s)

/-- Body of `App::stop`. -/
def stop (s : State) : State :=
  let s1 := emit [Action.enumeratorCancel, Action.usbHubCancel] { s with isStopped_ := true }
  match s1.androidAutoEntity_ with
  | some e => { emit [Action.entityStop e] s1 with androidAutoEntity_ := none }
  | none => s1

/-- Body of `App::aoapDeviceHandler`. -/
def aoapDeviceHandler (deviceHandle : DeviceHandle) (b : Build) (s : State) : State :=
  let s1 := emit [Action.log LogMsg.deviceConnected] s
  match s1.androidAutoEntity_ with
  | some _ => emit [Action.log LogMsg.entityStillRunning] s1
  | none =>
    createEntity (Transport.aoapDevice deviceHandle) b LogMsg.usbCreateError
      (emit [Action.enumeratorCancel] s1)

/-- Body of `App::onAndroidAutoQuit`.  The entity pointer is dereferenced
without a test, so the body has no defined result when it is empty. -/
def onAndroidAutoQuit (s : State) : Option State :=
  match s.androidAutoEntity_ with
  | none => none
  | some e =>
    let s1 := { emit [Action.log LogMsg.quit, Action.entityStop e] s with
                androidAutoEntity_ := none }
    some (if s1.isStopped_ = true then s1 else waitForDevice s1)

/-- Body of `App::onUSBHubError`. -/
def onUSBHubError (error : Error) (s : State) : State :=
  let s1 := emit [Action.log LogMsg.usbHubError] s
  if (error.neCode ErrorCode.OPERATION_ABORTED && error.neCode ErrorCode.OPERATION_IN_PROGRESS) = true then
    waitForDevice s1
  else
    s1

/-- Resolve continuation installed by `waitForDevice`. -/
def usbHubResolved (deviceHandle : DeviceHandle) (b : Build) (s : State) : State :=
  aoapDeviceHandler deviceHandle b s

/-- Reject continuation installed by `waitForDevice`. -/
def usbHubRejected (error : Error) (s : State) : State :=
  onUSBHubError error s

/-- Resolve continuation installed by `enumerateDevices`: it logs the result. -/
def enumerateResolved (_result : Nat) (s : State) : State :=
  emit [Action.log LogMsg.enumerationResult] s

/-- Reject continuation installed by `enumerateDevices`: it logs the error. -/
def enumerateRejected (_error : Error) (s : State) : State :=
  emit [Action.log LogMsg.enumerationFailed] s

/-- The events the strand of the supervisor serialises. -/
inductive Event where
  | waitForUSBDevice
  | start (socket : Socket) (b : Build)
  | stop
  | usbHubResolved (deviceHandle : DeviceHandle) (b : Build)
  | usbHubRejected (error : Error)
  | enumerateResolved (result : Nat)
  | enumerateRejected (error : Error)
  | onAndroidAutoQuit
  deriving DecidableEq, Repr

/-- One event; `none` when the body has no defined result. -/
def step (ev : Event) (s : State) : Option State :=
  match ev with
  | Event.waitForUSBDevice => some (waitForUSBDevice s)
  | Event.start socket b => some (start socket b s)
  | Event.stop => some (stop s)
  | Event.usbHubResolved d b => some (usbHubResolved d b s)
  | Event.usbHubRejected e => some (usbHubRejected e s)
  | Event.enumerateResolved n => some (enumerateResolved n s)
  | Event.enumerateRejected e => some (enumerateRejected e s)
  | Event.onAndroidAutoQuit => onAndroidAutoQuit s

/-- A sequence of events in order.  The run ends at the first event without a
defined result; the flag tells whether every event was processed. -/
def run : List Event → State → State × Bool
  | [], s => (s, true)
  | ev :: evs, s =>
    match step ev s with
    | none => (s, false)
    | some s1 => run evs s1

/-- Whether a collaborator call starts a discovery operation. -/
def Action.startsDiscovery : Action → Bool
  | Action.usbHubStart => true
  | Action.enumeratorEnumerate => true
  | _ => false

/-- Number of discovery operations (USB waits and enumerations) a trace starts. -/
def discoveryStarts (tr : List Action) : Nat :=
  (tr.filter Action.startsDiscovery).length

/-- Number of USB device waits a trace starts. -/
def usbWaitStarts (tr : List Action) : Nat :=
  tr.count Action.usbHubStart

/-- Events after which `stop()` stays terminal: no external restart, a session
construction that does not throw, and a USB wait rejected only as aborted or
in progress. -/
def Event.quiet : Event → Bool
  | Event.waitForUSBDevice => false
  | Event.start _ b => !b.fails
  | Event.stop => true
  | Event.usbHubResolved _ b => !b.fails
  | Event.usbHubRejected e =>
    decide (e.code = ErrorCode.OPERATION_ABORTED ∨ e.code = ErrorCode.OPERATION_IN_PROGRESS)
  | Event.enumerateResolved _ => true
  | Event.enumerateRejected _ => true
  | Event.onAndroidAutoQuit => true

end App

/-! ## Channel services

Each handler body is one state transformer.  What a driver call returns
(`open()`, `init()`, `isActive()`, `isPaired(address)`) and what the clock
reads are arguments of the handler.  A send hands a promise to the channel; the
continuation that the promise runs when it resolves is recorded with the send,
and the completion is a later event of its own. -/

namespace Service

/-- A byte buffer. -/
abbrev Data := List Nat

/-- A bluetooth address. -/
abbrev Address := String

/-- Values of `proto::enums::Status` that the services set. -/
inductive Status where
  | OK
  | FAIL
  deriving DecidableEq, Repr

/-- Values of `proto::enums::AVChannelSetupStatus` that the services set. -/
inductive AVChannelSetupStatus where
  | OK
  | FAIL
  deriving DecidableEq, Repr

/-- Values of `proto::enums::BluetoothPairingStatus` that the services set. -/
inductive BluetoothPairingStatus where
  | OK
  | FAIL
  deriving DecidableEq, Repr

/-- Values of `proto::enums::VideoFocusMode`. -/
inductive VideoFocusMode where
  | NONE
  | FOCUSED
  | UNFOCUSED
  deriving DecidableEq, Repr

/-- The outbound messages the three services build, with the fields they set. -/
inductive Message where
  | channelOpenResponse (status : Status)
  | avChannelSetupResponse (media_status : AVChannelSetupStatus) (max_unacked : Nat)
      (configs : List Nat)
  | avMediaAckIndication (session : Int) (value : Nat)
  | videoFocusIndication (focus_mode : VideoFocusMode) (unrequested : Bool)
  | avInputOpenResponse (session : Int) (value : Int)
  | avMediaWithTimestampIndication (timestamp : Nat) (data : Data)
  | bluetoothPairingResponse (already_paired : Bool) (status : BluetoothPairingStatus)
  deriving DecidableEq, Repr

/-- The log lines of the three services. -/
inductive LogMsg where
  | openRequest
  | openStatus
  | setupRequest
  | setupStatus
  | startIndication
  | stopIndication
  | channelError
  | videoFocusRequest
  | videoFocusIndication
  | inputOpenRequest
  | inputOpenFailed
  | inputOpenSucceed
  | readRejected
  | pairingRequest
  deriving DecidableEq, Repr

end Service

/-! ### VideoService -/

namespace VideoService

open Service

/-- What the promise of a send runs when the send resolves: the empty lambda,
or `sendVideoFocusIndication()`. -/
inductive Then where
  | nothing
  | sendVideoFocusIndication
  deriving DecidableEq, Repr

/-- Calls the video service makes on its channel, its driver and the logger. -/
inductive Action where
  | log (m : LogMsg)
  | receive
  | send (msg : Message) (onResolve : Then)
  | videoOutputOpen
  | videoOutputInit
  | videoOutputWrite (timestamp : Nat) (buffer : Data)
  | videoOutputStop
  deriving DecidableEq, Repr

/-- Modelled from the spec: the member declarations of `VideoService` are in
`VideoService.hpp`, which is not among the sources; the service keeps the
session identifier assigned by the peer.  The name is the one the method bodies
use, and the trace of collaborator calls is added. -/
structure State where
  session_ : Int
  trace : List Action
  deriving DecidableEq, Repr

/-- Constructor: `session_(-1)`. -/
def init : State := ⟨-1, []⟩

/-- Append collaborator calls to the trace. -/
def emit (as : List Action) (s : State) : State :=
  { s with trace := s.trace ++ as }

/-- Body of `VideoService::onChannelError`. -/
def onChannelError (_e : Error) (s : State) : State :=
  emit [Action.log LogMsg.channelError] s

/-- Body of `VideoService::sendVideoFocusIndication`. -/
def sendVideoFocusIndication (s : State) : State :=
  emit [Action.log LogMsg.videoFocusIndication,
        Action.send (Message.videoFocusIndication VideoFocusMode.FOCUSED false)
          Then.nothing] s

/-- Body of `VideoService::onChannelOpenRequest`; `openOk` is what
`videoOutput_->open()` returns. -/
def onChannelOpenRequest (_priority : Int) (openOk : Bool) (s : State) : State :=
  emit [Action.log LogMsg.openRequest, Action.videoOutputOpen,
        Action.log LogMsg.openStatus,
        Action.send
          (Message.channelOpenResponse (if openOk = true then Status.OK else Status.FAIL))
          Then.nothing,
        Action.receive] s

/-- Body of `VideoService::onAVChannelSetupRequest`; `initOk` is what
`videoOutput_->init()` returns. -/
def onAVChannelSetupRequest (_config_index : Nat) (initOk : Bool) (s : State) : State :=
  emit [Action.log LogMsg.setupRequest, Action.videoOutputInit,
        Action.log LogMsg.setupStatus,
        Action.send
          (Message.avChannelSetupResponse
            (if initOk = true then AVChannelSetupStatus.OK else AVChannelSetupStatus.FAIL)
            1 [0])
          Then.sendVideoFocusIndication,
        Action.receive] s

/-- Body of `VideoService::onAVChannelStartIndication`. -/
def onAVChannelStartIndication (session : Int) (s : State) : State :=
  emit [Action.receive] { emit [Action.log LogMsg.startIndication] s with session_ := session }

/-- Body of `VideoService::onAVChannelStopIndication`. -/
def onAVChannelStopIndication (s : State) : State :=
  emit [Action.log LogMsg.stopIndication, Action.receive] s

/-- Body of `VideoService::onAVMediaWithTimestampIndication`. -/
def onAVMediaWithTimestampIndication (timestamp : Nat) (buffer : Data) (s : State) : State :=
  emit [Action.videoOutputWrite timestamp buffer,
        Action.send (Message.avMediaAckIndication s.session_ 1) Then.nothing,
        Action.receive] s

/-- Body of `VideoService::onAVMediaIndication`. -/
def onAVMediaIndication (buffer : Data) (s : State) : State :=
  emit [Action.videoOutputWrite 0 buffer,
        Action.send (Message.avMediaAckIndication s.session_ 1) Then.nothing,
        Action.receive] s

/-- Body of `VideoService::onVideoFocusRequest`. -/
def onVideoFocusRequest (_disp_index : Int) (_focus_mode : VideoFocusMode)
    (_focus_reason : Int) (s : State) : State :=
  emit [Action.receive] (sendVideoFocusIndication (emit [Action.log LogMsg.videoFocusRequest] s))

/-- The inbound messages of the video channel, each with what the driver
returns while its handler runs. -/
inductive Inbound where
  | channelOpenRequest (priority : Int) (openOk : Bool)
  | avChannelSetupRequest (config_index : Nat) (initOk : Bool)
  | avChannelStartIndication (session : Int)
  | avChannelStopIndication
  | avMediaWithTimestampIndication (timestamp : Nat) (buffer : Data)
  | avMediaIndication (buffer : Data)
  | videoFocusRequest (disp_index : Int) (focus_mode : VideoFocusMode) (focus_reason : Int)
  deriving DecidableEq, Repr

/-- The handler the channel calls for an inbound message. -/
def handle (m : Inbound) (s : State) : State :=
  match m with
  | Inbound.channelOpenRequest priority openOk => onChannelOpenRequest priority openOk s
  | Inbound.avChannelSetupRequest config_index initOk =>
    onAVChannelSetupRequest config_index initOk s
  | Inbound.avChannelStartIndication session => onAVChannelStartIndication session s
  | Inbound.avChannelStopIndication => onAVChannelStopIndication s
  | Inbound.avMediaWithTimestampIndication timestamp buffer =>
    onAVMediaWithTimestampIndication timestamp buffer s
  | Inbound.avMediaIndication buffer => onAVMediaIndication buffer s
  | Inbound.videoFocusRequest disp_index focus_mode focus_reason =>
    onVideoFocusRequest disp_index focus_mode focus_reason s

/-- Resolve continuation of a send promise. -/
def sendResolved (k : Then) (s : State) : State :=
  match k with
  | Then.nothing => s
  | Then.sendVideoFocusIndication => sendVideoFocusIndication s

/-- Reject continuation of a send promise: `onChannelError(e)`. -/
def sendRejected (e : Error) (s : State) : State :=
  onChannelError e s

/-- How a send ends: resolved, rejected, or never completed. -/
inductive SendOutcome where
  | resolved
  | rejected (e : Error)
  | pending
  deriving DecidableEq, Repr

/-- The continuation that runs for a send with resolve continuation `k`, given
how the send ends. -/
def sendCompleted (k : Then) (o : SendOutcome) (s : State) : State :=
  match o with
  | SendOutcome.resolved => sendResolved k s
  | SendOutcome.rejected e => sendRejected e s
  | SendOutcome.pending => s

/-- The events the strand of the video service serialises. -/
inductive Event where
  | inbound (m : Inbound)
  | sendResolved (k : Then)
  | sendRejected (e : Error)
  deriving DecidableEq, Repr

/-- One event. -/
def step (ev : Event) (s : State) : State :=
  match ev with
  | Event.inbound m => handle m s
  | Event.sendResolved k => sendResolved k s
  | Event.sendRejected e => sendRejected e s

/-- A sequence of events in order. -/
def run (evs : List Event) (s : State) : State :=
  evs.foldl (fun acc ev => step ev acc) s

/-- The session of the most recent start indication once `ev` has occurred,
given the one before it. -/
def noteStart (seen : Option Int) (ev : Event) : Option Int :=
  match ev with
  | Event.inbound (Inbound.avChannelStartIndication session) => some session
  | _ => seen

/-- The session of the most recent start indication among the events, if
there is one. -/
def lastStartSession (evs : List Event) : Option Int :=
  evs.foldl noteStart none

/-- Number of `channel_->receive` calls in a trace. -/
def receives (tr : List Action) : Nat :=
  tr.count Action.receive

/-- Whether a call sends a video focus indication. -/
def Action.isFocusIndication : Action → Bool
  | Action.send (Message.videoFocusIndication _ _) _ => true
  | _ => false

/-- Whether a call is made on the video driver. -/
def Action.isDriverCall : Action → Bool
  | Action.videoOutputOpen => true
  | Action.videoOutputInit => true
  | Action.videoOutputWrite _ _ => true
  | Action.videoOutputStop => true
  | _ => false

end VideoService

/-! ### AudioInputService -/

namespace AudioInputService

open Service

/-- What the promise of a send runs when the send resolves: the empty lambda,
or `readAudioInput()`. -/
inductive Then where
  | nothing
  | readAudioInput
  deriving DecidableEq, Repr

/-- Calls the audio input service makes on its channel, its driver and the
logger. -/
inductive Action where
  | log (m : LogMsg)
  | receive
  | send (msg : Message) (onResolve : Then)
  | audioInputOpen
  | audioInputStart
  | audioInputStop
  | audioInputIsActive
  | audioInputRead
  deriving DecidableEq, Repr

/-- Modelled from the spec: the member declarations of `AudioInputService` are
in `AudioInputService.hpp`, which is not among the sources; the service uses
one session identifier for all exchanges.  The name is the one the method
bodies use, and the trace of collaborator calls is added. -/
structure State where
  session_ : Int
  trace : List Action
  deriving DecidableEq, Repr

/-- Constructor: `session_(0)`. -/
def init : State := ⟨0, []⟩

/-- Append collaborator calls to the trace. -/
def emit (as : List Action) (s : State) : State :=
  { s with trace := s.trace ++ as }

/-- Body of `AudioInputService::onChannelError`. -/
def onChannelError (_e : Error) (s : State) : State :=
  emit [Action.log LogMsg.channelError] s

/-- Body of `AudioInputService::onChannelOpenRequest`; `openOk` is what
`audioInput_->open()` returns. -/
def onChannelOpenRequest (_priority : Int) (openOk : Bool) (s : State) : State :=
  emit [Action.log LogMsg.openRequest, Action.audioInputOpen,
        Action.log LogMsg.openStatus,
        Action.send
          (Message.channelOpenResponse (if openOk = true then Status.OK else Status.FAIL))
          Then.nothing,
        Action.receive] s

/-- Body of `AudioInputService::onAVChannelSetupRequest`. -/
def onAVChannelSetupRequest (_config_index : Nat) (s : State) : State :=
  emit [Action.log LogMsg.setupRequest, Action.log LogMsg.setupStatus,
        Action.send (Message.avChannelSetupResponse AVChannelSetupStatus.OK 1 [0])
          Then.nothing,
        Action.receive] s

/-- Body of `AudioInputService::onAVInputOpenRequest`; `openFlag` is
`request.open()`. -/
def onAVInputOpenRequest (openFlag _anc _ec : Bool) (_max_unacked : Int) (s : State) : State :=
  let s1 := emit [Action.log LogMsg.inputOpenRequest] s
  let s2 :=
    if openFlag = true then
      emit [Action.audioInputStart] s1
    else
      emit [Action.audioInputStop,
            Action.send (Message.avInputOpenResponse s1.session_ 0) Then.nothing] s1
  emit [Action.receive] s2

/-- Body of `AudioInputService::onAVMediaAckIndication`. -/
def onAVMediaAckIndication (s : State) : State :=
  emit [Action.receive] s

/-- Body of `AudioInputService::readAudioInput`; `isActive` is what
`audioInput_->isActive()` returns. -/
def readAudioInput (isActive : Bool) (s : State) : State :=
  let s1 := emit [Action.audioInputIsActive] s
  if isActive = true then emit [Action.audioInputRead] s1 else s1

/-- Body of `AudioInputService::onAudioInputOpenSucceed`, the resolve
continuation of the start promise. -/
def onAudioInputOpenSucceed (isActive : Bool) (s : State) : State :=
  readAudioInput isActive
    (emit [Action.log LogMsg.inputOpenSucceed,
           Action.send (Message.avInputOpenResponse s.session_ 0) Then.nothing] s)

/-- Reject continuation of the start promise in `onAVInputOpenRequest`. -/
def onAudioInputOpenFailed (s : State) : State :=
  emit [Action.log LogMsg.inputOpenFailed,
        Action.send (Message.avInputOpenResponse s.session_ 1) Then.nothing] s

/-- Body of `AudioInputService::onAudioInputDataReady`, the resolve
continuation of the read promise; `now` is the clock reading in
microseconds. -/
def onAudioInputDataReady (data : Data) (now : Nat) (s : State) : State :=
  emit [Action.send (Message.avMediaWithTimestampIndication now data) Then.readAudioInput] s

/-- Reject continuation of the read promise in `readAudioInput`. -/
def onAudioInputReadRejected (s : State) : State :=
  emit [Action.log LogMsg.readRejected] s

/-- The inbound messages of the audio input channel, each with what the driver
returns while its handler runs. -/
inductive Inbound where
  | channelOpenRequest (priority : Int) (openOk : Bool)
  | avChannelSetupRequest (config_index : Nat)
  | avInputOpenRequest (openFlag anc ec : Bool) (max_unacked : Int)
  | avMediaAckIndication
  deriving DecidableEq, Repr

/-- The handler the channel calls for an inbound message. -/
def handle (m : Inbound) (s : State) : State :=
  match m with
  | Inbound.channelOpenRequest priority openOk => onChannelOpenRequest priority openOk s
  | Inbound.avChannelSetupRequest config_index => onAVChannelSetupRequest config_index s
  | Inbound.avInputOpenRequest openFlag anc ec max_unacked =>
    onAVInputOpenRequest openFlag anc ec max_unacked s
  | Inbound.avMediaAckIndication => onAVMediaAckIndication s

/-- Resolve continuation of a send promise; `isActive` is what the driver
reports if the continuation is `readAudioInput()`. -/
def sendResolved (k : Then) (isActive : Bool) (s : State) : State :=
  match k with
  | Then.nothing => s
  | Then.readAudioInput => readAudioInput isActive s

/-- Reject continuation of a send promise: `onChannelError(e)`. -/
def sendRejected (e : Error) (s : State) : State :=
  onChannelError e s

/-- The events the strand of the audio input service serialises: inbound
messages and the completions of driver starts, driver reads, media indication
sends and response sends. -/
inductive Event where
  | inbound (m : Inbound)
  | startResolved (isActive : Bool)
  | startRejected
  | readResolved (data : Data) (now : Nat)
  | readRejected
  | mediaSendResolved (isActive : Bool)
  | mediaSendRejected (e : Error)
  | responseSendResolved
  | responseSendRejected (e : Error)
  deriving DecidableEq, Repr

/-- The body that runs for one event. -/
def body (ev : Event) (s : State) : State :=
  match ev with
  | Event.inbound m => handle m s
  | Event.startResolved isActive => onAudioInputOpenSucceed isActive s
  | Event.startRejected => onAudioInputOpenFailed s
  | Event.readResolved data now => onAudioInputDataReady data now s
  | Event.readRejected => onAudioInputReadRejected s
  | Event.mediaSendResolved isActive => sendResolved Then.readAudioInput isActive s
  | Event.mediaSendRejected e => sendRejected e s
  | Event.responseSendResolved => sendResolved Then.nothing false s
  | Event.responseSendRejected e => sendRejected e s

/-- Number of `channel_->receive` calls in a trace. -/
def receives (tr : List Action) : Nat :=
  tr.count Action.receive

/-- Whether a call sends a media indication. -/
def Action.isMediaSend : Action → Bool
  | Action.send (Message.avMediaWithTimestampIndication _ _) _ => true
  | _ => false

/-- The service state together with the numbers of operations it has issued
that have not completed yet: driver starts, driver reads, media indication
sends. -/
structure Tracked where
  state : State
  pendingStarts : Nat
  pendingReads : Nat
  pendingMediaSends : Nat
  deriving DecidableEq, Repr

/-- A fresh service with nothing outstanding. -/
def Tracked.fresh : Tracked := ⟨init, 0, 0, 0⟩

/-- Whether the event completes a driver start. -/
def Event.completesStart : Event → Bool
  | Event.startResolved _ => true
  | Event.startRejected => true
  | _ => false

/-- Whether the event completes a driver read. -/
def Event.completesRead : Event → Bool
  | Event.readResolved _ _ => true
  | Event.readRejected => true
  | _ => false

/-- Whether the event completes a media indication send. -/
def Event.completesMediaSend : Event → Bool
  | Event.mediaSendResolved _ => true
  | Event.mediaSendRejected _ => true
  | _ => false

/-- A completion can occur only while an operation of its kind is
outstanding. -/
def enabled (ev : Event) (t : Tracked) : Bool :=
  (!ev.completesStart || decide (0 < t.pendingStarts)) &&
  (!ev.completesRead || decide (0 < t.pendingReads)) &&
  (!ev.completesMediaSend || decide (0 < t.pendingMediaSends))

/-- One event: the body runs, the completed operation is no longer
outstanding, and the operations the body issued are. -/
def apply (ev : Event) (t : Tracked) : Tracked :=
  let s1 := body ev t.state
  let added := s1.trace.drop t.state.trace.length
  { state := s1
    pendingStarts :=
      t.pendingStarts - (if ev.completesStart = true then 1 else 0) +
        added.count Action.audioInputStart
    pendingReads :=
      t.pendingReads - (if ev.completesRead = true then 1 else 0) +
        added.count Action.audioInputRead
    pendingMediaSends :=
      t.pendingMediaSends - (if ev.completesMediaSend = true then 1 else 0) +
        added.countP Action.isMediaSend }

/-- A sequence of events in order. -/
def run (evs : List Event) (t : Tracked) : Tracked :=
  evs.foldl (fun acc ev => apply ev acc) t

/-- Whether every event of the sequence is enabled when it occurs. -/
def wellFormed : List Event → Tracked → Bool
  | [], _ => true
  | ev :: evs, t => enabled ev t && wellFormed evs (apply ev t)

/-- Whether the event is an input-open request with `open = true`. -/
def Event.opensInput : Event → Bool
  | Event.inbound (Inbound.avInputOpenRequest openFlag _ _ _) => openFlag
  | _ => false

/-- Whether the sequence is well formed and every input-open request with
`open = true` arrives while no driver start, driver read or media indication
send is outstanding. -/
def oneActivation : List Event → Tracked → Bool
  | [], _ => true
  | ev :: evs, t =>
    enabled ev t &&
    (!ev.opensInput ||
      decide (t.pendingStarts = 0 ∧ t.pendingReads = 0 ∧ t.pendingMediaSends = 0)) &&
    oneActivation evs (apply ev t)

/-- Whether the event is a completion during which the driver reports
active before `readAudioInput` reads. -/
def Event.reportsActive : Event → Bool
  | Event.startResolved isActive => isActive
  | Event.mediaSendResolved isActive => isActive
  | _ => false

/-- Number of driver reads the event issues from the state. -/
def readsIssued (ev : Event) (s : State) : Nat :=
  ((body ev s).trace.drop s.trace.length).count Action.audioInputRead

end AudioInputService

/-! ### BluetoothService -/

namespace BluetoothService

open Service

/-- Calls the bluetooth service makes on its channel, its driver and the
logger.  Every send of this service has the empty resolve continuation. -/
inductive Action where
  | log (m : LogMsg)
  | receive
  | send (msg : Message)
  | bluetoothIsPaired (address : Address)
  | bluetoothStop
  deriving DecidableEq, Repr

/-- The service has no member that its handlers assign; the state is the trace
of collaborator calls. -/
structure State where
  trace : List Action
  deriving DecidableEq, Repr

/-- A fresh service. -/
def init : State := ⟨[]⟩

/-- Append collaborator calls to the trace. -/
def emit (as : List Action) (s : State) : State :=
  { s with trace := s.trace ++ as }

/-- Body of `BluetoothService::onChannelError`. -/
def onChannelError (_e : Error) (s : State) : State :=
  emit [Action.log LogMsg.channelError] s

/-- Body of `BluetoothService::onChannelOpenRequest`. -/
def onChannelOpenRequest (_priority : Int) (s : State) : State :=
  emit [Action.log LogMsg.openRequest, Action.log LogMsg.openStatus,
        Action.send (Message.channelOpenResponse Status.OK), Action.receive] s

/-- Body of `BluetoothService::onBluetoothPairingRequest`; `paired` is the
lookup `bluetoothDevice_->isPaired`. -/
def onBluetoothPairingRequest (paired : Address → Bool) (phone_address : Address)
    (s : State) : State :=
  let isPaired := paired phone_address
  emit [Action.log LogMsg.pairingRequest, Action.bluetoothIsPaired phone_address,
        Action.send
          (Message.bluetoothPairingResponse isPaired
            (if isPaired = true then BluetoothPairingStatus.OK
             else BluetoothPairingStatus.FAIL)),
        Action.receive] s

/-- The inbound messages of the bluetooth channel. -/
inductive Inbound where
  | channelOpenRequest (priority : Int)
  | bluetoothPairingRequest (phone_address : Address)
  deriving DecidableEq, Repr

/-- The handler the channel calls for an inbound message. -/
def handle (paired : Address → Bool) (m : Inbound) (s : State) : State :=
  match m with
  | Inbound.channelOpenRequest priority => onChannelOpenRequest priority s
  | Inbound.bluetoothPairingRequest phone_address =>
    onBluetoothPairingRequest paired phone_address s

/-- Resolve continuation of a send promise: the empty lambda. -/
def sendResolved (s : State) : State := s

/-- Reject continuation of a send promise: `onChannelError(e)`. -/
def sendRejected (e : Error) (s : State) : State :=
  onChannelError e s

/-- Number of `channel_->receive` calls in a trace. -/
def receives (tr : List Action) : Nat :=
  tr.count Action.receive

end BluetoothService

/-! ## Theorems: Pinger -/

namespace Pinger

/-- C1, the code as written: when a ping is outstanding, `ping promise` clears
the cancel flag and calls `reject(OPERATION_IN_PROGRESS)` on the STORED promise,
not on the new one; the stored promise stays stored and the counters are
unchanged.  At the state with promise 1 outstanding, `ping 2` therefore settles
promise 1 and never settles promise 2. -/
theorem ping_outstanding_rejects_stored :
    (∀ (c : Bool) (stored promise : Promise) (p q : Int) (tr : List Action),
      ping promise ⟨c, some stored, p, q, tr⟩ =
        ⟨false, some stored, p, q,
          tr ++ [Action.reject stored (Error.ofCode ErrorCode.OPERATION_IN_PROGRESS)]⟩) ∧
    settlements 2 (ping 2 ⟨false, some 1, 1, 0, []⟩).trace = [] ∧
    settlements 1 (ping 2 ⟨false, some 1, 1, 0, []⟩).trace =
      [Action.reject 1 (Error.ofCode ErrorCode.OPERATION_IN_PROGRESS)] := by
  refine ⟨?_, by decide, by decide⟩
  intro c stored promise p q tr
  rfl

/-- C2: with a promise stored and the cancel flag clear, a timer expiry whose
status is not the abort status resolves the promise when
`pingsCount_ - pongsCount_ ≤ 1` and otherwise rejects it with the default
error, and clears the slot.  From a fresh watchdog: ping, expiry resolves; a
second ping, expiry rejects; with one `pong()` before the second expiry (at any
of the three possible positions) the second expiry resolves. -/
theorem onTimerExceeded_resolves_iff_diff_le_one :
    (∀ (stored : Promise) (p q : Int) (tr : List Action),
      onTimerExceeded AsioError.success ⟨false, some stored, p, q, tr⟩ =
        ⟨false, none, p, q,
          tr ++ [if p - q ≤ 1 then Action.resolve stored
                 else Action.reject stored Error.default]⟩) ∧
    (∀ (n : Nat) (stored : Promise) (p q : Int) (tr : List Action),
      onTimerExceeded (AsioError.other n) ⟨false, some stored, p, q, tr⟩ =
        ⟨false, none, p, q,
          tr ++ [if p - q ≤ 1 then Action.resolve stored
                 else Action.reject stored Error.default]⟩) ∧
    (∀ h1 : Promise,
      (onTimerExceeded AsioError.success (ping h1 init)).trace =
        [Action.timerExpiresFromNow, Action.timerAsyncWait, Action.resolve h1]) ∧
    (∀ h1 h2 : Promise,
      (onTimerExceeded AsioError.success
        (ping h2 (onTimerExceeded AsioError.success (ping h1 init)))).trace =
        [Action.timerExpiresFromNow, Action.timerAsyncWait, Action.resolve h1,
         Action.timerExpiresFromNow, Action.timerAsyncWait,
         Action.reject h2 Error.default]) ∧
    (∀ h1 h2 : Promise,
      (onTimerExceeded AsioError.success
        (pong (ping h2 (onTimerExceeded AsioError.success (ping h1 init))))).trace =
        [Action.timerExpiresFromNow, Action.timerAsyncWait, Action.resolve h1,
         Action.timerExpiresFromNow, Action.timerAsyncWait, Action.resolve h2]) ∧
    (∀ h1 h2 : Promise,
      (onTimerExceeded AsioError.success
        (ping h2 (pong (onTimerExceeded AsioError.success (ping h1 init))))).trace =
        [Action.timerExpiresFromNow, Action.timerAsyncWait, Action.resolve h1,
         Action.timerExpiresFromNow, Action.timerAsyncWait, Action.resolve h2]) ∧
    (∀ h1 h2 : Promise,
      (onTimerExceeded AsioError.success
        (ping h2 (onTimerExceeded AsioError.success (pong (ping h1 init))))).trace =
        [Action.timerExpiresFromNow, Action.timerAsyncWait, Action.resolve h1,
         Action.timerExpiresFromNow, Action.timerAsyncWait, Action.resolve h2]) := by
  refine ⟨?_, ?_, ?_, ?_, ?_, ?_, ?_⟩
  · intro stored p q tr
    by_cases h : p - q ≤ 1
    · have h2 : ¬ (p - q > 1) := by omega
      simp [onTimerExceeded, h, h2]
    · have h2 : p - q > 1 := by omega
      simp [onTimerExceeded, h, h2]
  · intro n stored p q tr
    by_cases h : p - q ≤ 1
    · have h2 : ¬ (p - q > 1) := by omega
      simp [onTimerExceeded, h, h2]
    · have h2 : p - q > 1 := by omega
      simp [onTimerExceeded, h, h2]
  · intro h1
    simp [onTimerExceeded, ping, init]
  · intro h1 h2
    simp [onTimerExceeded, ping, init]
  · intro h1 h2
    simp [onTimerExceeded, ping, pong, init]
  · intro h1 h2
    simp [onTimerExceeded, ping, pong, init]
  · intro h1 h2
    simp [onTimerExceeded, ping, pong, init]

end Pinger

/-! ## Theorems: App -/

namespace App

/-- C3: with a session active, `start socket` closes the new socket and logs,
and `aoapDeviceHandler` only logs; both leave the entity and the stopped flag
as they were and call neither the factory, nor `stop()` on the entity, nor a
discovery cancel. -/
theorem active_session_not_disturbed (e : Entity) (stopped : Bool) (tr : List Action)
    (socket : Socket) (deviceHandle : DeviceHandle) (b : Build) :
    start socket b ⟨some e, stopped, tr⟩ =
      ⟨some e, stopped,
        tr ++ [Action.tcpClose socket, Action.log LogMsg.entityStillRunning]⟩ ∧
    aoapDeviceHandler deviceHandle b ⟨some e, stopped, tr⟩ =
      ⟨some e, stopped,
        tr ++ [Action.log LogMsg.deviceConnected,
               Action.log LogMsg.entityStillRunning]⟩ := by
  constructor
  · rfl
  · simp [aoapDeviceHandler, emit]

/-- C4: `stop()` sets the stopped flag and cancels the enumerator and the USB
hub; an active entity is stopped once and released, so no entity is held
afterwards.  A second `stop()` leaves the entity slot and the flag as they are
and only repeats the two cancellations: it stops no entity. -/
theorem stop_releases_and_is_idempotent :
    (∀ (e : Entity) (stopped : Bool) (tr : List Action),
      stop ⟨some e, stopped, tr⟩ =
        ⟨none, true,
          tr ++ [Action.enumeratorCancel, Action.usbHubCancel, Action.entityStop e]⟩) ∧
    (∀ (stopped : Bool) (tr : List Action),
      stop ⟨none, stopped, tr⟩ =
        ⟨none, true, tr ++ [Action.enumeratorCancel, Action.usbHubCancel]⟩) ∧
    (∀ s : State,
      (stop s).androidAutoEntity_ = none ∧ (stop s).isStopped_ = true ∧
      stop (stop s) =
        { stop s with
          trace := (stop s).trace ++ [Action.enumeratorCancel, Action.usbHubCancel] }) := by
  refine ⟨?_, ?_, ?_⟩
  · intro e stopped tr
    simp [stop, emit]
  · intro stopped tr
    simp [stop, emit]
  · intro s
    obtain ⟨ent, stopped, tr⟩ := s
    cases ent <;> simp [stop, emit]

/-- C5: with a session active, `onAndroidAutoQuit()` stops and releases the
entity and starts a new USB device wait exactly when the stopped flag is
clear. -/
theorem onAndroidAutoQuit_releases_and_waits (e : Entity) (stopped : Bool)
    (tr : List Action) :
    onAndroidAutoQuit ⟨some e, stopped, tr⟩ =
      some ⟨none, stopped,
        tr ++ [Action.log LogMsg.quit, Action.entityStop e] ++
          (if stopped = true then []
           else [Action.log LogMsg.waitingForDevice, Action.usbHubStart])⟩ := by
  cases stopped <;> simp [onAndroidAutoQuit, emit, waitForDevice]

/-- C6, the claim fails: a `start` whose factory call throws, from the initial
state, cancels the enumeration and afterwards starts only the USB wait; no
`enumerate` call is made. -/
theorem start_failure_does_not_enumerate :
    (start 7 (Build.createThrows (Error.ofCode (ErrorCode.OTHER 1))) init).trace =
      [Action.usbHubCancel, Action.enumeratorCancel,
       Action.makeTransport (Transport.tcpEndpoint 7),
       Action.factoryCreate (Transport.tcpEndpoint 7),
       Action.log LogMsg.tcpCreateError,
       Action.log LogMsg.waitingForDevice, Action.usbHubStart] ∧
    Action.enumeratorEnumerate ∉
      (start 7 (Build.createThrows (Error.ofCode (ErrorCode.OTHER 1))) init).trace := by
  constructor <;> decide

/-- C6 as amended: with no session active, a construction that throws during
`start` or `aoapDeviceHandler` leaves no entity held, keeps the stopped flag,
and ends by starting the USB device wait again; the enumeration is cancelled
and not started again. -/
theorem create_failure_rewaits_usb_only (stopped : Bool) (tr : List Action)
    (socket : Socket) (deviceHandle : DeviceHandle) (b : Build)
    (hb : b.fails = true) :
    (∃ mid : List Action,
      start socket b ⟨none, stopped, tr⟩ =
        ⟨none, stopped,
          tr ++ [Action.usbHubCancel, Action.enumeratorCancel] ++ mid ++
            [Action.log LogMsg.tcpCreateError,
             Action.log LogMsg.waitingForDevice, Action.usbHubStart]⟩ ∧
      discoveryStarts mid = 0) ∧
    (∃ mid : List Action,
      aoapDeviceHandler deviceHandle b ⟨none, stopped, tr⟩ =
        ⟨none, stopped,
          tr ++ [Action.log LogMsg.deviceConnected, Action.enumeratorCancel] ++ mid ++
            [Action.log LogMsg.usbCreateError,
             Action.log LogMsg.waitingForDevice, Action.usbHubStart]⟩ ∧
      discoveryStarts mid = 0) := by
  cases b with
  | transportThrows err =>
    exact ⟨⟨[Action.makeTransport (Transport.tcpEndpoint socket)],
            by simp [start, createEntity, catchCreateError, waitForDevice, emit], rfl⟩,
           ⟨[Action.makeTransport (Transport.aoapDevice deviceHandle)],
            by simp [aoapDeviceHandler, createEntity, catchCreateError, waitForDevice, emit],
            rfl⟩⟩
  | createThrows err =>
    exact ⟨⟨[Action.makeTransport (Transport.tcpEndpoint socket),
             Action.factoryCreate (Transport.tcpEndpoint socket)],
            by simp [start, createEntity, catchCreateError, waitForDevice, emit], rfl⟩,
           ⟨[Action.makeTransport (Transport.aoapDevice deviceHandle),
             Action.factoryCreate (Transport.aoapDevice deviceHandle)],
            by simp [aoapDeviceHandler, createEntity, catchCreateError, waitForDevice, emit],
            rfl⟩⟩
  | startThrows e err =>
    exact ⟨⟨[Action.makeTransport (Transport.tcpEndpoint socket),
             Action.factoryCreate (Transport.tcpEndpoint socket), Action.entityStart e],
            by simp [start, createEntity, catchCreateError, waitForDevice, emit], rfl⟩,
           ⟨[Action.makeTransport (Transport.aoapDevice deviceHandle),
             Action.factoryCreate (Transport.aoapDevice deviceHandle), Action.entityStart e],
            by simp [aoapDeviceHandler, createEntity, catchCreateError, waitForDevice, emit],
            rfl⟩⟩
  | ok e => simp [Build.fails] at hb

/-- Witness of the amended C6 at a factory failure from the initial state. -/
theorem create_failure_rewaits_usb_only_witness :
    (Build.createThrows (Error.ofCode (ErrorCode.OTHER 1))).fails = true ∧
    ((∃ mid : List Action,
      start 7 (Build.createThrows (Error.ofCode (ErrorCode.OTHER 1))) ⟨none, false, []⟩ =
        ⟨none, false,
          [] ++ [Action.usbHubCancel, Action.enumeratorCancel] ++ mid ++
            [Action.log LogMsg.tcpCreateError,
             Action.log LogMsg.waitingForDevice, Action.usbHubStart]⟩ ∧
      discoveryStarts mid = 0) ∧
    (∃ mid : List Action,
      aoapDeviceHandler 3 (Build.createThrows (Error.ofCode (ErrorCode.OTHER 1)))
          ⟨none, false, []⟩ =
        ⟨none, false,
          [] ++ [Action.log LogMsg.deviceConnected, Action.enumeratorCancel] ++ mid ++
            [Action.log LogMsg.usbCreateError,
             Action.log LogMsg.waitingForDevice, Action.usbHubStart]⟩ ∧
      discoveryStarts mid = 0)) :=
  ⟨rfl, create_failure_rewaits_usb_only false [] 7 3
    (Build.createThrows (Error.ofCode (ErrorCode.OTHER 1))) rfl⟩

end App

namespace App

/-! ### Runs of the supervisor -/

/-- The discovery starts of a concatenation add up. -/
theorem discoveryStarts_append (xs ys : List Action) :
    discoveryStarts (xs ++ ys) = discoveryStarts xs + discoveryStarts ys := by
  simp [discoveryStarts]

/-- No event clears a set stopped flag. -/
theorem step_keeps_stopped (ev : Event) (s s1 : State)
    (hs : s.isStopped_ = true) (h : step ev s = some s1) : s1.isStopped_ = true := by
  obtain ⟨ent, stopped, tr⟩ := s
  simp only at hs
  subst hs
  cases ev with
  | waitForUSBDevice =>
    simp [step, waitForUSBDevice, enumerateDevices, waitForDevice, emit] at h
    subst h; rfl
  | start socket b =>
    cases ent <;> cases b <;>
      simp [step, start, createEntity, catchCreateError, waitForDevice, emit] at h <;>
      (subst h; rfl)
  | stop =>
    cases ent <;> simp [step, stop, emit] at h <;> (subst h; rfl)
  | usbHubResolved d b =>
    cases ent <;> cases b <;>
      simp [step, usbHubResolved, aoapDeviceHandler, createEntity, catchCreateError,
        waitForDevice, emit] at h <;>
      (subst h; rfl)
  | usbHubRejected e =>
    simp only [step, usbHubRejected, onUSBHubError, Option.some.injEq] at h
    split at h <;> (subst h; rfl)
  | enumerateResolved n =>
    simp [step, enumerateResolved, emit] at h
    subst h; rfl
  | enumerateRejected e =>
    simp [step, enumerateRejected, emit] at h
    subst h; rfl
  | onAndroidAutoQuit =>
    cases ent <;> simp [step, onAndroidAutoQuit, emit] at h
    subst h; rfl

/-- Every event only appends to the trace. -/
theorem step_extends_trace (ev : Event) (s s1 : State)
    (h : step ev s = some s1) : s.trace <+: s1.trace := by
  obtain ⟨ent, stopped, tr⟩ := s
  cases ev with
  | waitForUSBDevice =>
    simp [step, waitForUSBDevice, enumerateDevices, waitForDevice, emit] at h
    subst h; simp
  | start socket b =>
    cases ent <;> cases b <;>
      simp [step, start, createEntity, catchCreateError, waitForDevice, emit] at h <;>
      (subst h; simp)
  | stop =>
    cases ent <;> simp [step, stop, emit] at h <;> (subst h; simp)
  | usbHubResolved d b =>
    cases ent <;> cases b <;>
      simp [step, usbHubResolved, aoapDeviceHandler, createEntity, catchCreateError,
        waitForDevice, emit] at h <;>
      (subst h; simp)
  | usbHubRejected e =>
    simp only [step, usbHubRejected, onUSBHubError, Option.some.injEq] at h
    split at h <;> (subst h; simp [waitForDevice, emit])
  | enumerateResolved n =>
    simp [step, enumerateResolved, emit] at h
    subst h; simp
  | enumerateRejected e =>
    simp [step, enumerateRejected, emit] at h
    subst h; simp
  | onAndroidAutoQuit =>
    cases ent <;> cases stopped <;>
      simp [step, onAndroidAutoQuit, waitForDevice, emit] at h <;>
      (subst h; simp)

/-- Once the stopped flag is set, a quiet event starts no discovery
operation. -/
theorem step_quiet_no_start (ev : Event) (s s1 : State)
    (hq : ev.quiet = true) (hs : s.isStopped_ = true) (h : step ev s = some s1) :
    discoveryStarts s1.trace = discoveryStarts s.trace := by
  obtain ⟨ent, stopped, tr⟩ := s
  simp only at hs
  subst hs
  cases ev with
  | waitForUSBDevice => simp [Event.quiet] at hq
  | start socket b =>
    cases ent <;> cases b <;> simp [Event.quiet, Build.fails] at hq <;>
      simp [step, start, createEntity, emit] at h <;>
      (subst h; simp [discoveryStarts, Action.startsDiscovery])
  | stop =>
    cases ent <;> simp [step, stop, emit] at h <;>
      (subst h; simp [discoveryStarts, Action.startsDiscovery])
  | usbHubResolved d b =>
    cases ent <;> cases b <;> simp [Event.quiet, Build.fails] at hq <;>
      simp [step, usbHubResolved, aoapDeviceHandler, createEntity, emit] at h <;>
      (subst h; simp [discoveryStarts, Action.startsDiscovery])
  | usbHubRejected e =>
    have hc : (e.neCode ErrorCode.OPERATION_ABORTED &&
        e.neCode ErrorCode.OPERATION_IN_PROGRESS) = false := by
      simp only [Event.quiet, decide_eq_true_eq] at hq
      rcases hq with hq | hq <;> simp [Error.neCode, hq]
    simp [step, usbHubRejected, onUSBHubError, hc, emit] at h
    subst h; simp [discoveryStarts, Action.startsDiscovery]
  | enumerateResolved n =>
    simp [step, enumerateResolved, emit] at h
    subst h; simp [discoveryStarts, Action.startsDiscovery]
  | enumerateRejected e =>
    simp [step, enumerateRejected, emit] at h
    subst h; simp [discoveryStarts, Action.startsDiscovery]
  | onAndroidAutoQuit =>
    cases ent <;> simp [step, onAndroidAutoQuit, emit] at h
    subst h; simp [discoveryStarts, Action.startsDiscovery]

/-- A run keeps a set stopped flag. -/
theorem run_keeps_stopped (evs : List Event) (s : State)
    (hs : s.isStopped_ = true) : (run evs s).1.isStopped_ = true := by
  induction evs generalizing s with
  | nil => simpa [run] using hs
  | cons ev evs ih =>
    cases h : step ev s with
    | none => simpa [run, h] using hs
    | some s1 =>
      simp only [run, h]
      exact ih s1 (step_keeps_stopped ev s s1 hs h)

/-- A run only appends to the trace. -/
theorem run_extends_trace (evs : List Event) (s : State) :
    s.trace <+: (run evs s).1.trace := by
  induction evs generalizing s with
  | nil => simp [run]
  | cons ev evs ih =>
    cases h : step ev s with
    | none => simp [run, h]
    | some s1 =>
      simp only [run, h]
      exact (step_extends_trace ev s s1 h).trans (ih s1)

/-- A run of quiet events from a stopped state starts no discovery
operation. -/
theorem run_quiet_no_start (evs : List Event) (s : State)
    (hq : evs.all Event.quiet = true) (hs : s.isStopped_ = true) :
    discoveryStarts (run evs s).1.trace = discoveryStarts s.trace := by
  induction evs generalizing s with
  | nil => simp [run]
  | cons ev evs ih =>
    simp only [List.all_cons, Bool.and_eq_true] at hq
    cases h : step ev s with
    | none => simp [run, h]
    | some s1 =>
      simp only [run, h]
      rw [ih s1 hq.2 (step_keeps_stopped ev s s1 hs h)]
      exact step_quiet_no_start ev s s1 hq.1 hs h

/-- The stopped flag is set after `stop()`. -/
theorem stop_isStopped (s : State) : (stop s).isStopped_ = true := by
  obtain ⟨ent, stopped, tr⟩ := s
  cases ent <;> simp [stop, emit]

end App

namespace App

/-- C7, the claim fails: after `stop()` on the initial state, with no external
restart, an incoming connection whose factory call throws starts a USB device
wait, and so does a USB wait rejected with a code other than aborted or in
progress. -/
theorem stop_not_terminal_on_failure :
    discoveryStarts (stop init).trace = 0 ∧
    (run [Event.start 7 (Build.createThrows (Error.ofCode (ErrorCode.OTHER 1)))]
        (stop init)).1.trace =
      [Action.enumeratorCancel, Action.usbHubCancel,
       Action.usbHubCancel, Action.enumeratorCancel,
       Action.makeTransport (Transport.tcpEndpoint 7),
       Action.factoryCreate (Transport.tcpEndpoint 7),
       Action.log LogMsg.tcpCreateError,
       Action.log LogMsg.waitingForDevice, Action.usbHubStart] ∧
    (run [Event.usbHubRejected (Error.ofCode (ErrorCode.OTHER 1))] (stop init)).1.trace =
      [Action.enumeratorCancel, Action.usbHubCancel,
       Action.log LogMsg.usbHubError,
       Action.log LogMsg.waitingForDevice, Action.usbHubStart] := by
  refine ⟨?_, ?_, ?_⟩ <;> decide

/-- C7 as amended: after `stop()`, over every sequence of events with no
external restart, no session construction that throws and no USB wait rejected
with a code other than aborted or in progress, the supervisor only appends
calls that start neither a USB device wait nor an enumeration. -/
theorem stop_terminal_for_quiet_events (s : State) (evs : List Event)
    (hq : evs.all Event.quiet = true) :
    ∃ added : List Action,
      (run evs (stop s)).1.trace = (stop s).trace ++ added ∧
      ∀ a ∈ added, a.startsDiscovery = false := by
  obtain ⟨added, hadd⟩ := run_extends_trace evs (stop s)
  refine ⟨added, hadd.symm, ?_⟩
  have hcount := run_quiet_no_start evs (stop s) hq (stop_isStopped s)
  rw [← hadd, discoveryStarts_append] at hcount
  have hzero : discoveryStarts added = 0 := by omega
  intro a ha
  by_contra hne
  have hmem : a ∈ added.filter Action.startsDiscovery := by
    simp only [List.mem_filter]
    exact ⟨ha, by simpa using hne⟩
  have hlen : 0 < (added.filter Action.startsDiscovery).length :=
    List.length_pos_of_mem hmem
  simp only [discoveryStarts] at hzero
  omega

/-- Witness of the amended C7: a session is built and ends, and the USB wait
reports its abort, all after `stop()`. -/
theorem stop_terminal_for_quiet_events_witness :
    [Event.start 7 (Build.ok 1), Event.onAndroidAutoQuit,
      Event.usbHubRejected (Error.ofCode ErrorCode.OPERATION_ABORTED)].all Event.quiet = true ∧
    ∃ added : List Action,
      (run [Event.start 7 (Build.ok 1), Event.onAndroidAutoQuit,
          Event.usbHubRejected (Error.ofCode ErrorCode.OPERATION_ABORTED)]
        (stop init)).1.trace = (stop init).trace ++ added ∧
      ∀ a ∈ added, a.startsDiscovery = false :=
  ⟨by decide, stop_terminal_for_quiet_events init _ (by decide)⟩

/-- C8, the claim fails: after `stop()` and then `waitForUSBDevice()` on the
initial state the stopped flag is still set, and when a session built
afterwards ends, no USB device wait is started. -/
theorem restart_does_not_clear_stopped :
    (waitForUSBDevice (stop init)).isStopped_ = true ∧
    onAndroidAutoQuit (start 7 (Build.ok 1) (waitForUSBDevice (stop init))) =
      some ⟨none, true,
        [Action.enumeratorCancel, Action.usbHubCancel,
         Action.log LogMsg.waitingForDevice, Action.usbHubStart,
         Action.enumeratorEnumerate,
         Action.usbHubCancel, Action.enumeratorCancel,
         Action.makeTransport (Transport.tcpEndpoint 7),
         Action.factoryCreate (Transport.tcpEndpoint 7), Action.entityStart 1,
         Action.log LogMsg.quit, Action.entityStop 1]⟩ := by
  constructor <;> decide

/-- C8 as amended: the stopped flag set by `stop()` stays set over every
sequence of events, `waitForUSBDevice()` included, which starts the USB wait
and the enumeration and keeps the flag; a session built after that restart is
stopped and released when it ends, and no USB device wait follows. -/
theorem stopped_flag_is_permanent :
    (∀ (evs : List Event) (s : State), (run evs (stop s)).1.isStopped_ = true) ∧
    (∀ s : State,
      waitForUSBDevice (stop s) =
        { stop s with
          trace := (stop s).trace ++
            [Action.log LogMsg.waitingForDevice, Action.usbHubStart,
             Action.enumeratorEnumerate] }) ∧
    (∀ (s : State) (socket : Socket) (e : Entity),
      (start socket (Build.ok e) (waitForUSBDevice (stop s))).androidAutoEntity_ = some e ∧
      onAndroidAutoQuit (start socket (Build.ok e) (waitForUSBDevice (stop s))) =
        some ⟨none, true,
          (start socket (Build.ok e) (waitForUSBDevice (stop s))).trace ++
            [Action.log LogMsg.quit, Action.entityStop e]⟩) := by
  refine ⟨?_, ?_, ?_⟩
  · intro evs s
    exact run_keeps_stopped evs (stop s) (stop_isStopped s)
  · intro s
    simp [waitForUSBDevice, enumerateDevices, waitForDevice, emit]
  · intro s socket e
    obtain ⟨ent, stopped, tr⟩ := s
    cases ent <;>
      simp [stop, waitForUSBDevice, enumerateDevices, waitForDevice, start, createEntity,
        onAndroidAutoQuit, emit]

/-- C9, the claim fails: a USB wait rejected with OPERATION_IN_PROGRESS, a
code other than OPERATION_ABORTED, only logs and starts no USB device wait. -/
theorem in_progress_rejection_starts_nothing :
    (Error.ofCode ErrorCode.OPERATION_IN_PROGRESS).code ≠ ErrorCode.OPERATION_ABORTED ∧
    onUSBHubError (Error.ofCode ErrorCode.OPERATION_IN_PROGRESS) init =
      ⟨none, false, [Action.log LogMsg.usbHubError]⟩ := by
  constructor <;> decide

/-- C9 as amended: `onUSBHubError` logs and then starts the USB device wait
again exactly when the error code is neither OPERATION_ABORTED nor
OPERATION_IN_PROGRESS; the entity and the stopped flag are untouched. -/
theorem onUSBHubError_rewaits_iff (error : Error) (s : State) :
    onUSBHubError error s =
      { s with
        trace := s.trace ++ Action.log LogMsg.usbHubError ::
          (if error.code ≠ ErrorCode.OPERATION_ABORTED ∧
              error.code ≠ ErrorCode.OPERATION_IN_PROGRESS
           then [Action.log LogMsg.waitingForDevice, Action.usbHubStart] else []) } ∧
    (usbWaitStarts (onUSBHubError error s).trace = usbWaitStarts s.trace + 1 ↔
      error.code ≠ ErrorCode.OPERATION_ABORTED ∧
        error.code ≠ ErrorCode.OPERATION_IN_PROGRESS) := by
  by_cases h : error.code ≠ ErrorCode.OPERATION_ABORTED ∧
      error.code ≠ ErrorCode.OPERATION_IN_PROGRESS
  · have hc : (error.neCode ErrorCode.OPERATION_ABORTED &&
        error.neCode ErrorCode.OPERATION_IN_PROGRESS) = true := by
      simp [Error.neCode, h.1, h.2]
    simp [onUSBHubError, hc, h, waitForDevice, emit, usbWaitStarts]
  · have hc : (error.neCode ErrorCode.OPERATION_ABORTED &&
        error.neCode ErrorCode.OPERATION_IN_PROGRESS) = false := by
      simp only [Error.neCode, Bool.and_eq_false_iff, decide_eq_false_iff_not]
      by_cases h1 : error.code = ErrorCode.OPERATION_ABORTED
      · exact Or.inl (by simp [h1])
      · exact Or.inr (fun h2 => h ⟨h1, h2⟩)
    simp [onUSBHubError, hc, h, emit, usbWaitStarts]

/-- C10, the claim fails: a resolved enumeration, with both discovery
operations started from the initial state, only logs; the USB wait is not
cancelled, the factory is not called and no session is held. -/
theorem enumeration_success_only_logs :
    enumerateResolved 1 (waitForUSBDevice init) =
      ⟨none, false,
        [Action.log LogMsg.waitingForDevice, Action.usbHubStart,
         Action.enumeratorEnumerate, Action.log LogMsg.enumerationResult]⟩ ∧
    Action.usbHubCancel ∉ (enumerateResolved 1 (waitForUSBDevice init)).trace := by
  constructor <;> decide

/-- C10 as amended: with no session active, a resolved USB wait cancels the
enumerator and goes on to session construction, which, when nothing throws,
builds the device transport, has the factory create the entity and starts it;
a resolved enumeration only logs its result, whatever the state. -/
theorem usb_success_builds_enumeration_logs :
    (∀ (deviceHandle : DeviceHandle) (b : Build) (stopped : Bool) (tr : List Action),
      usbHubResolved deviceHandle b ⟨none, stopped, tr⟩ =
        createEntity (Transport.aoapDevice deviceHandle) b LogMsg.usbCreateError
          ⟨none, stopped,
            tr ++ [Action.log LogMsg.deviceConnected, Action.enumeratorCancel]⟩) ∧
    (∀ (deviceHandle : DeviceHandle) (e : Entity) (stopped : Bool) (tr : List Action),
      usbHubResolved deviceHandle (Build.ok e) ⟨none, stopped, tr⟩ =
        ⟨some e, stopped,
          tr ++ [Action.log LogMsg.deviceConnected, Action.enumeratorCancel,
                 Action.makeTransport (Transport.aoapDevice deviceHandle),
                 Action.factoryCreate (Transport.aoapDevice deviceHandle),
                 Action.entityStart e]⟩) ∧
    (∀ (result : Nat) (s : State),
      enumerateResolved result s =
        { s with trace := s.trace ++ [Action.log LogMsg.enumerationResult] }) := by
  refine ⟨?_, ?_, ?_⟩
  · intro deviceHandle b stopped tr
    simp [usbHubResolved, aoapDeviceHandler, emit]
  · intro deviceHandle e stopped tr
    simp [usbHubResolved, aoapDeviceHandler, createEntity, emit]
  · intro result s
    rfl

end App

/-! ## Theorems: channel services -/

namespace Service

/-- C11: every inbound-message handler of the video, audio input and bluetooth
services adds exactly one `channel_->receive` call, whatever the message and
whatever the driver returns; the handler returns before any send completes,
and the continuations of a send add no receive: the reject continuation only
logs and leaves the members as they are, the resolve continuation adds no
receive either. -/
theorem handlers_rearm_receive_once :
    (∀ (m : VideoService.Inbound) (s : VideoService.State),
      VideoService.receives (VideoService.handle m s).trace =
        VideoService.receives s.trace + 1) ∧
    (∀ (m : AudioInputService.Inbound) (s : AudioInputService.State),
      AudioInputService.receives (AudioInputService.handle m s).trace =
        AudioInputService.receives s.trace + 1) ∧
    (∀ (paired : Address → Bool) (m : BluetoothService.Inbound) (s : BluetoothService.State),
      BluetoothService.receives (BluetoothService.handle paired m s).trace =
        BluetoothService.receives s.trace + 1) ∧
    (∀ (e : Error) (s : VideoService.State),
      VideoService.sendRejected e s =
        { s with trace := s.trace ++ [VideoService.Action.log LogMsg.channelError] }) ∧
    (∀ (e : Error) (s : AudioInputService.State),
      AudioInputService.sendRejected e s =
        { s with trace := s.trace ++ [AudioInputService.Action.log LogMsg.channelError] }) ∧
    (∀ (e : Error) (s : BluetoothService.State),
      BluetoothService.sendRejected e s =
        { s with trace := s.trace ++ [BluetoothService.Action.log LogMsg.channelError] }) ∧
    (∀ (m : VideoService.Inbound) (k : VideoService.Then) (o : VideoService.SendOutcome)
        (s : VideoService.State),
      VideoService.receives
          (VideoService.sendCompleted k o (VideoService.handle m s)).trace =
        VideoService.receives s.trace + 1) ∧
    (∀ (k : AudioInputService.Then) (isActive : Bool) (s : AudioInputService.State),
      AudioInputService.receives (AudioInputService.sendResolved k isActive s).trace =
        AudioInputService.receives s.trace) ∧
    (∀ s : BluetoothService.State, BluetoothService.sendResolved s = s) := by
  have hv : ∀ (m : VideoService.Inbound) (s : VideoService.State),
      VideoService.receives (VideoService.handle m s).trace =
        VideoService.receives s.trace + 1 := by
    intro m s
    cases m <;>
      simp [VideoService.handle, VideoService.onChannelOpenRequest,
        VideoService.onAVChannelSetupRequest, VideoService.onAVChannelStartIndication,
        VideoService.onAVChannelStopIndication,
        VideoService.onAVMediaWithTimestampIndication, VideoService.onAVMediaIndication,
        VideoService.onVideoFocusRequest, VideoService.sendVideoFocusIndication,
        VideoService.emit, VideoService.receives, List.count_cons]
  refine ⟨hv, ?_, ?_, ?_, ?_, ?_, ?_, ?_, ?_⟩
  · intro m s
    cases m with
    | avInputOpenRequest openFlag anc ec max_unacked =>
      cases openFlag <;>
        simp [AudioInputService.handle, AudioInputService.onAVInputOpenRequest,
          AudioInputService.emit, AudioInputService.receives, List.count_cons]
    | _ =>
      simp [AudioInputService.handle, AudioInputService.onChannelOpenRequest,
        AudioInputService.onAVChannelSetupRequest, AudioInputService.onAVMediaAckIndication,
        AudioInputService.emit, AudioInputService.receives, List.count_cons]
  · intro paired m s
    cases m <;>
      simp [BluetoothService.handle, BluetoothService.onChannelOpenRequest,
        BluetoothService.onBluetoothPairingRequest, BluetoothService.emit,
        BluetoothService.receives, List.count_cons]
  · intro e s
    rfl
  · intro e s
    rfl
  · intro e s
    rfl
  · intro m k o s
    cases o with
    | resolved =>
      cases k with
      | nothing => simpa [VideoService.sendCompleted, VideoService.sendResolved] using hv m s
      | sendVideoFocusIndication =>
        have h := hv m s
        simp only [VideoService.sendCompleted, VideoService.sendResolved,
          VideoService.sendVideoFocusIndication, VideoService.emit, VideoService.receives,
          List.count_append] at h ⊢
        simp [List.count_cons, h]
    | rejected e =>
      have h := hv m s
      simp only [VideoService.sendCompleted, VideoService.sendRejected,
        VideoService.onChannelError, VideoService.emit, VideoService.receives,
        List.count_append] at h ⊢
      simp [List.count_cons, h]
    | pending => simpa [VideoService.sendCompleted] using hv m s
  · intro k isActive s
    cases k <;> cases isActive <;>
      simp [AudioInputService.sendResolved, AudioInputService.readAudioInput,
        AudioInputService.emit, AudioInputService.receives, List.count_cons]
  · intro s
    rfl

end Service

namespace VideoService

open Service

/-- C12: for every setup request, whatever its config index, the handler
queries `init()`, sends a setup response with media status OK or FAIL
according to the result, `max_unacked = 1` and `configs = [0]`, and re-arms the
receive.  When that send resolves, a focus indication with mode FOCUSED and
`unrequested = false` is sent; when it is rejected only the error is logged;
while it has not completed nothing follows.  So a focus indication follows
exactly in the resolved case. -/
theorem setup_response_then_focus :
    (∀ (config_index : Nat) (initOk : Bool) (session : Int) (tr : List Action),
      onAVChannelSetupRequest config_index initOk ⟨session, tr⟩ =
        ⟨session,
          tr ++ [Action.log LogMsg.setupRequest, Action.videoOutputInit,
                 Action.log LogMsg.setupStatus,
                 Action.send
                   (Message.avChannelSetupResponse
                     (if initOk = true then AVChannelSetupStatus.OK
                      else AVChannelSetupStatus.FAIL) 1 [0])
                   Then.sendVideoFocusIndication,
                 Action.receive]⟩) ∧
    (∀ (session : Int) (tr : List Action),
      sendCompleted Then.sendVideoFocusIndication SendOutcome.resolved ⟨session, tr⟩ =
        ⟨session,
          tr ++ [Action.log LogMsg.videoFocusIndication,
                 Action.send (Message.videoFocusIndication VideoFocusMode.FOCUSED false)
                   Then.nothing]⟩) ∧
    (∀ (e : Error) (session : Int) (tr : List Action),
      sendCompleted Then.sendVideoFocusIndication (SendOutcome.rejected e) ⟨session, tr⟩ =
        ⟨session, tr ++ [Action.log LogMsg.channelError]⟩) ∧
    (∀ s : State, sendCompleted Then.sendVideoFocusIndication SendOutcome.pending s = s) ∧
    (∀ (config_index : Nat) (initOk : Bool) (o : SendOutcome) (s : State),
      ((sendCompleted Then.sendVideoFocusIndication o
          (onAVChannelSetupRequest config_index initOk s)).trace.drop
            s.trace.length).countP Action.isFocusIndication =
        if o = SendOutcome.resolved then 1 else 0) := by
  refine ⟨?_, ?_, ?_, ?_, ?_⟩
  · intro config_index initOk session tr
    rfl
  · intro session tr
    rfl
  · intro e session tr
    rfl
  · intro s
    rfl
  · intro config_index initOk o s
    cases o <;>
      simp [sendCompleted, sendResolved, sendRejected, onChannelError,
        sendVideoFocusIndication, onAVChannelSetupRequest, emit, List.countP_cons,
        Action.isFocusIndication]

/-- Folding over a sequence extended by one event. -/
theorem run_append_one (evs : List Event) (ev : Event) (s : State) :
    run (evs ++ [ev]) s = step ev (run evs s) := by
  simp [run, List.foldl_append]

/-- The most recent start indication of a sequence extended by one event. -/
theorem lastStartSession_append_one (evs : List Event) (ev : Event) :
    lastStartSession (evs ++ [ev]) = noteStart (lastStartSession evs) ev := by
  simp [lastStartSession, List.foldl_append]

/-- After any sequence of events the stored session is that of the most recent
start indication, and the constructor value when there was none. -/
theorem run_session (evs : List Event) :
    (run evs init).session_ = (lastStartSession evs).getD (-1) := by
  induction evs using List.reverseRecOn with
  | nil => rfl
  | append_singleton evs ev ih =>
    rw [run_append_one, lastStartSession_append_one]
    cases ev with
    | inbound m =>
      cases m <;>
        simp [step, handle, noteStart, onChannelOpenRequest, onAVChannelSetupRequest,
          onAVChannelStartIndication, onAVChannelStopIndication,
          onAVMediaWithTimestampIndication, onAVMediaIndication, onVideoFocusRequest,
          sendVideoFocusIndication, emit, ih]
    | sendResolved k =>
      cases k <;> simp [step, noteStart, sendResolved, sendVideoFocusIndication, emit, ih]
    | sendRejected e =>
      simp [step, noteStart, sendRejected, onChannelError, emit, ih]

/-- C13: a media indication is first written to the driver, with the timestamp
of the message or with 0 when it carries none, and then acknowledged with
`value = 1` and the stored session, before the receive is re-armed; the stored
session is untouched.  A start indication stores its session and a stop
indication stores nothing; both call no driver function.  After any sequence of
events the stored session is that of the most recent start indication (the
constructor value -1 when there was none). -/
theorem media_written_then_acknowledged :
    (∀ (timestamp : Nat) (buffer : Data) (session : Int) (tr : List Action),
      onAVMediaWithTimestampIndication timestamp buffer ⟨session, tr⟩ =
        ⟨session,
          tr ++ [Action.videoOutputWrite timestamp buffer,
                 Action.send (Message.avMediaAckIndication session 1) Then.nothing,
                 Action.receive]⟩) ∧
    (∀ (buffer : Data) (session : Int) (tr : List Action),
      onAVMediaIndication buffer ⟨session, tr⟩ =
        ⟨session,
          tr ++ [Action.videoOutputWrite 0 buffer,
                 Action.send (Message.avMediaAckIndication session 1) Then.nothing,
                 Action.receive]⟩) ∧
    (∀ (indicated session : Int) (tr : List Action),
      onAVChannelStartIndication indicated ⟨session, tr⟩ =
        ⟨indicated, tr ++ [Action.log LogMsg.startIndication, Action.receive]⟩) ∧
    (∀ (session : Int) (tr : List Action),
      onAVChannelStopIndication ⟨session, tr⟩ =
        ⟨session, tr ++ [Action.log LogMsg.stopIndication, Action.receive]⟩) ∧
    (∀ evs : List Event, (run evs init).session_ = (lastStartSession evs).getD (-1)) ∧
    (∀ (evs : List Event) (timestamp : Nat) (buffer : Data),
      (run (evs ++ [Event.inbound (Inbound.avMediaWithTimestampIndication timestamp buffer)])
          init).trace =
        (run evs init).trace ++
          [Action.videoOutputWrite timestamp buffer,
           Action.send
             (Message.avMediaAckIndication ((lastStartSession evs).getD (-1)) 1)
             Then.nothing,
           Action.receive]) := by
  refine ⟨?_, ?_, ?_, ?_, run_session, ?_⟩
  · intro timestamp buffer session tr
    rfl
  · intro buffer session tr
    rfl
  · intro indicated session tr
    simp [onAVChannelStartIndication, emit]
  · intro session tr
    rfl
  · intro evs timestamp buffer
    rw [run_append_one]
    simp [step, handle, onAVMediaWithTimestampIndication, emit, run_session]

end VideoService

namespace BluetoothService

open Service

/-- C16: for every pairing request the handler logs, looks the phone address
up with `isPaired`, sends a response whose `already_paired` is the result of
that lookup and whose status is OK when it is true and FAIL otherwise, and
re-arms the receive; the lookup is its only call on the driver. -/
theorem pairing_response_from_lookup (paired : Address → Bool) (phone_address : Address)
    (tr : List Action) :
    onBluetoothPairingRequest paired phone_address ⟨tr⟩ =
      ⟨tr ++ [Action.log LogMsg.pairingRequest, Action.bluetoothIsPaired phone_address,
              Action.send
                (Message.bluetoothPairingResponse (paired phone_address)
                  (if paired phone_address = true then BluetoothPairingStatus.OK
                   else BluetoothPairingStatus.FAIL)),
              Action.receive]⟩ := by
  rfl

end BluetoothService

namespace AudioInputService

open Service

/-- No event assigns the session member. -/
theorem body_session (ev : Event) (s : State) : (body ev s).session_ = s.session_ := by
  cases ev with
  | inbound m =>
    cases m with
    | avInputOpenRequest openFlag anc ec max_unacked =>
      cases openFlag <;> simp [body, handle, onAVInputOpenRequest, emit]
    | _ =>
      simp [body, handle, onChannelOpenRequest, onAVChannelSetupRequest,
        onAVMediaAckIndication, emit]
  | startResolved isActive =>
    cases isActive <;> simp [body, onAudioInputOpenSucceed, readAudioInput, emit]
  | mediaSendResolved isActive =>
    cases isActive <;> simp [body, sendResolved, readAudioInput, emit]
  | _ =>
    simp [body, onAudioInputOpenFailed, onAudioInputDataReady, onAudioInputReadRejected,
      sendResolved, sendRejected, onChannelError, emit]

/-- Folding over a sequence extended by one event. -/
theorem run_snoc (evs : List Event) (ev : Event) (t : Tracked) :
    run (evs ++ [ev]) t = apply ev (run evs t) := by
  simp [run, List.foldl_append]

/-- The session member is 0 in every state reached from a fresh service. -/
theorem run_session_zero (evs : List Event) : (run evs Tracked.fresh).state.session_ = 0 := by
  induction evs using List.reverseRecOn with
  | nil => rfl
  | append_singleton evs ev ih =>
    rw [run_snoc]
    simp only [apply]
    rw [body_session]
    exact ih

/-- C14: an input-open request with `open = true` asks the driver to start and
re-arms the receive.  When the start resolves, the service sends the response
`(session, value = 0)` and enters `readAudioInput`, which asks the driver
whether it is active and issues a read when it is; when the start is rejected,
the service sends `(session, value = 1)` and issues no read.  A request with
`open = false` stops the driver and then sends `(session, value = 0)`.  The
session member is 0 in every state reached from a fresh service, so each of
these responses carries session 0.  The same is stated for the events
themselves: in every state reached from a fresh service, the request event,
the resolved start, the rejected start and the closing request run these bodies
and issue these calls, and the two activations from a fresh service, one with
the start resolved and one with it rejected, produce the traces shown. -/
theorem input_open_responses :
    (∀ (anc ec : Bool) (max_unacked : Int) (session : Int) (tr : List Action),
      onAVInputOpenRequest true anc ec max_unacked ⟨session, tr⟩ =
        ⟨session,
          tr ++ [Action.log LogMsg.inputOpenRequest, Action.audioInputStart,
                 Action.receive]⟩) ∧
    (∀ (isActive : Bool) (session : Int) (tr : List Action),
      onAudioInputOpenSucceed isActive ⟨session, tr⟩ =
        ⟨session,
          tr ++ [Action.log LogMsg.inputOpenSucceed,
                 Action.send (Message.avInputOpenResponse session 0) Then.nothing,
                 Action.audioInputIsActive] ++
            (if isActive = true then [Action.audioInputRead] else [])⟩) ∧
    (∀ (session : Int) (tr : List Action),
      onAudioInputOpenFailed ⟨session, tr⟩ =
        ⟨session,
          tr ++ [Action.log LogMsg.inputOpenFailed,
                 Action.send (Message.avInputOpenResponse session 1) Then.nothing]⟩) ∧
    (∀ (anc ec : Bool) (max_unacked : Int) (session : Int) (tr : List Action),
      onAVInputOpenRequest false anc ec max_unacked ⟨session, tr⟩ =
        ⟨session,
          tr ++ [Action.log LogMsg.inputOpenRequest, Action.audioInputStop,
                 Action.send (Message.avInputOpenResponse session 0) Then.nothing,
                 Action.receive]⟩) ∧
    (∀ evs : List Event, (run evs Tracked.fresh).state.session_ = 0) ∧
    (∀ (evs : List Event) (anc ec : Bool) (max_unacked : Int),
      apply (Event.inbound (Inbound.avInputOpenRequest true anc ec max_unacked))
          (run evs Tracked.fresh) =
        { state :=
            ⟨0, (run evs Tracked.fresh).state.trace ++
              [Action.log LogMsg.inputOpenRequest, Action.audioInputStart,
               Action.receive]⟩
          pendingStarts := (run evs Tracked.fresh).pendingStarts + 1
          pendingReads := (run evs Tracked.fresh).pendingReads
          pendingMediaSends := (run evs Tracked.fresh).pendingMediaSends }) ∧
    (∀ (evs : List Event) (isActive : Bool),
      apply (Event.startResolved isActive) (run evs Tracked.fresh) =
        { state :=
            ⟨0, (run evs Tracked.fresh).state.trace ++
              [Action.log LogMsg.inputOpenSucceed,
               Action.send (Message.avInputOpenResponse 0 0) Then.nothing,
               Action.audioInputIsActive] ++
              (if isActive = true then [Action.audioInputRead] else [])⟩
          pendingStarts := (run evs Tracked.fresh).pendingStarts - 1
          pendingReads :=
            (run evs Tracked.fresh).pendingReads + (if isActive = true then 1 else 0)
          pendingMediaSends := (run evs Tracked.fresh).pendingMediaSends }) ∧
    (∀ evs : List Event,
      apply Event.startRejected (run evs Tracked.fresh) =
        { state :=
            ⟨0, (run evs Tracked.fresh).state.trace ++
              [Action.log LogMsg.inputOpenFailed,
               Action.send (Message.avInputOpenResponse 0 1) Then.nothing]⟩
          pendingStarts := (run evs Tracked.fresh).pendingStarts - 1
          pendingReads := (run evs Tracked.fresh).pendingReads
          pendingMediaSends := (run evs Tracked.fresh).pendingMediaSends }) ∧
    (∀ (evs : List Event) (anc ec : Bool) (max_unacked : Int),
      apply (Event.inbound (Inbound.avInputOpenRequest false anc ec max_unacked))
          (run evs Tracked.fresh) =
        { state :=
            ⟨0, (run evs Tracked.fresh).state.trace ++
              [Action.log LogMsg.inputOpenRequest, Action.audioInputStop,
               Action.send (Message.avInputOpenResponse 0 0) Then.nothing,
               Action.receive]⟩
          pendingStarts := (run evs Tracked.fresh).pendingStarts
          pendingReads := (run evs Tracked.fresh).pendingReads
          pendingMediaSends := (run evs Tracked.fresh).pendingMediaSends }) ∧
    (∀ (anc ec : Bool) (max_unacked : Int) (isActive : Bool),
      run [Event.inbound (Inbound.avInputOpenRequest true anc ec max_unacked),
           Event.startResolved isActive] Tracked.fresh =
        { state :=
            ⟨0, [Action.log LogMsg.inputOpenRequest, Action.audioInputStart,
                 Action.receive, Action.log LogMsg.inputOpenSucceed,
                 Action.send (Message.avInputOpenResponse 0 0) Then.nothing,
                 Action.audioInputIsActive] ++
                (if isActive = true then [Action.audioInputRead] else [])⟩
          pendingStarts := 0
          pendingReads := if isActive = true then 1 else 0
          pendingMediaSends := 0 }) ∧
    (∀ (anc ec : Bool) (max_unacked : Int),
      run [Event.inbound (Inbound.avInputOpenRequest true anc ec max_unacked),
           Event.startRejected] Tracked.fresh =
        { state :=
            ⟨0, [Action.log LogMsg.inputOpenRequest, Action.audioInputStart,
                 Action.receive, Action.log LogMsg.inputOpenFailed,
                 Action.send (Message.avInputOpenResponse 0 1) Then.nothing]⟩
          pendingStarts := 0
          pendingReads := 0
          pendingMediaSends := 0 }) := by
  refine ⟨?_, ?_, ?_, ?_, run_session_zero, ?_, ?_, ?_, ?_, ?_, ?_⟩
  · intro anc ec max_unacked session tr
    simp [onAVInputOpenRequest, emit]
  · intro isActive session tr
    cases isActive <;> simp [onAudioInputOpenSucceed, readAudioInput, emit]
  · intro session tr
    rfl
  · intro anc ec max_unacked session tr
    simp [onAVInputOpenRequest, emit]
  · intro evs anc ec max_unacked
    have h0 := run_session_zero evs
    generalize run evs Tracked.fresh = t at h0 ⊢
    obtain ⟨⟨session, tr⟩, ps, pr, pm⟩ := t
    simp only at h0
    subst h0
    simp [apply, body, handle, onAVInputOpenRequest, emit, Event.completesStart,
      Event.completesRead, Event.completesMediaSend, Action.isMediaSend, List.count_cons,
      List.countP_cons]
  · intro evs isActive
    have h0 := run_session_zero evs
    generalize run evs Tracked.fresh = t at h0 ⊢
    obtain ⟨⟨session, tr⟩, ps, pr, pm⟩ := t
    simp only at h0
    subst h0
    cases isActive <;>
      simp [apply, body, onAudioInputOpenSucceed, readAudioInput, emit,
        Event.completesStart, Event.completesRead, Event.completesMediaSend,
        Action.isMediaSend, List.count_cons, List.countP_cons]
  · intro evs
    have h0 := run_session_zero evs
    generalize run evs Tracked.fresh = t at h0 ⊢
    obtain ⟨⟨session, tr⟩, ps, pr, pm⟩ := t
    simp only at h0
    subst h0
    simp [apply, body, onAudioInputOpenFailed, emit, Event.completesStart,
      Event.completesRead, Event.completesMediaSend, Action.isMediaSend, List.count_cons,
      List.countP_cons]
  · intro evs anc ec max_unacked
    have h0 := run_session_zero evs
    generalize run evs Tracked.fresh = t at h0 ⊢
    obtain ⟨⟨session, tr⟩, ps, pr, pm⟩ := t
    simp only at h0
    subst h0
    simp [apply, body, handle, onAVInputOpenRequest, emit, Event.completesStart,
      Event.completesRead, Event.completesMediaSend, Action.isMediaSend, List.count_cons,
      List.countP_cons]
  · intro anc ec max_unacked isActive
    cases isActive <;>
      simp [run, Tracked.fresh, init, apply, body, handle, onAVInputOpenRequest,
        onAudioInputOpenSucceed, readAudioInput, emit, Event.completesStart,
        Event.completesRead, Event.completesMediaSend, Action.isMediaSend,
        List.count_cons, List.countP_cons]
  · intro anc ec max_unacked
    simp [run, Tracked.fresh, init, apply, body, handle, onAVInputOpenRequest,
      onAudioInputOpenFailed, emit, Event.completesStart, Event.completesRead,
      Event.completesMediaSend, Action.isMediaSend, List.count_cons, List.countP_cons]

end AudioInputService

namespace AudioInputService

open Service

/-- What `apply` does to the three numbers, for each kind of event. -/
theorem apply_pending (ev : Event) (t : Tracked) :
    (apply ev t).pendingStarts =
      t.pendingStarts - (if ev.completesStart = true then 1 else 0) +
        (if ev.opensInput = true then 1 else 0) ∧
    (apply ev t).pendingReads =
      t.pendingReads - (if ev.completesRead = true then 1 else 0) +
        (if ev.reportsActive = true then 1 else 0) ∧
    (apply ev t).pendingMediaSends =
      t.pendingMediaSends - (if ev.completesMediaSend = true then 1 else 0) +
        (match ev with
         | Event.readResolved _ _ => 1
         | _ => 0) := by
  obtain ⟨⟨session, tr⟩, ps, pr, pm⟩ := t
  cases ev with
  | inbound m =>
    cases m with
    | avInputOpenRequest openFlag anc ec max_unacked =>
      cases openFlag <;>
        simp [apply, body, handle, onAVInputOpenRequest, emit, Event.completesStart,
          Event.completesRead, Event.completesMediaSend, Event.opensInput,
          Event.reportsActive, Action.isMediaSend, List.count_cons, List.countP_cons]
    | _ =>
      simp [apply, body, handle, onChannelOpenRequest, onAVChannelSetupRequest,
        onAVMediaAckIndication, emit, Event.completesStart, Event.completesRead,
        Event.completesMediaSend, Event.opensInput, Event.reportsActive,
        Action.isMediaSend, List.count_cons, List.countP_cons]
  | startResolved isActive =>
    cases isActive <;>
      simp [apply, body, onAudioInputOpenSucceed, readAudioInput, emit,
        Event.completesStart, Event.completesRead, Event.completesMediaSend,
        Event.opensInput, Event.reportsActive, Action.isMediaSend, List.count_cons,
        List.countP_cons]
  | mediaSendResolved isActive =>
    cases isActive <;>
      simp [apply, body, sendResolved, readAudioInput, emit, Event.completesStart,
        Event.completesRead, Event.completesMediaSend, Event.opensInput,
        Event.reportsActive, Action.isMediaSend, List.count_cons, List.countP_cons]
  | _ =>
    simp [apply, body, onAudioInputOpenFailed, onAudioInputDataReady,
      onAudioInputReadRejected, sendResolved, sendRejected, onChannelError, emit,
      Event.completesStart, Event.completesRead, Event.completesMediaSend,
      Event.opensInput, Event.reportsActive, Action.isMediaSend, List.count_cons,
      List.countP_cons]

end AudioInputService

namespace AudioInputService

open Service

/-- An enabled event that does not start a second activation keeps the total
of outstanding starts, reads and media sends at most one. -/
theorem apply_keeps_token (ev : Event) (t : Tracked)
    (he : enabled ev t = true)
    (ho : ev.opensInput = true →
      t.pendingStarts = 0 ∧ t.pendingReads = 0 ∧ t.pendingMediaSends = 0)
    (hinv : t.pendingStarts + t.pendingReads + t.pendingMediaSends ≤ 1) :
    (apply ev t).pendingStarts + (apply ev t).pendingReads +
      (apply ev t).pendingMediaSends ≤ 1 := by
  obtain ⟨h1, h2, h3⟩ := apply_pending ev t
  rw [h1, h2, h3]
  cases ev with
  | inbound m =>
    cases m with
    | avInputOpenRequest openFlag anc ec max_unacked =>
      cases openFlag
      · simp [Event.completesStart, Event.completesRead, Event.completesMediaSend,
          Event.opensInput, Event.reportsActive]
        omega
      · have hz := ho rfl
        simp [Event.completesStart, Event.completesRead, Event.completesMediaSend,
          Event.opensInput, Event.reportsActive, hz.1, hz.2.1, hz.2.2]
    | _ =>
      simp [Event.completesStart, Event.completesRead, Event.completesMediaSend,
        Event.opensInput, Event.reportsActive]
      omega
  | startResolved isActive =>
    have hp : 0 < t.pendingStarts := by
      simpa [enabled, Event.completesStart, Event.completesRead,
        Event.completesMediaSend] using he
    cases isActive <;>
      simp [Event.completesStart, Event.completesRead, Event.completesMediaSend,
        Event.opensInput, Event.reportsActive] <;> omega
  | startRejected =>
    simp [Event.completesStart, Event.completesRead, Event.completesMediaSend,
      Event.opensInput, Event.reportsActive]
    omega
  | readResolved data now =>
    have hp : 0 < t.pendingReads := by
      simpa [enabled, Event.completesStart, Event.completesRead,
        Event.completesMediaSend] using he
    simp [Event.completesStart, Event.completesRead, Event.completesMediaSend,
      Event.opensInput, Event.reportsActive]
    omega
  | readRejected =>
    simp [Event.completesStart, Event.completesRead, Event.completesMediaSend,
      Event.opensInput, Event.reportsActive]
    omega
  | mediaSendResolved isActive =>
    have hp : 0 < t.pendingMediaSends := by
      simpa [enabled, Event.completesStart, Event.completesRead,
        Event.completesMediaSend] using he
    cases isActive <;>
      simp [Event.completesStart, Event.completesRead, Event.completesMediaSend,
        Event.opensInput, Event.reportsActive] <;> omega
  | mediaSendRejected e =>
    simp [Event.completesStart, Event.completesRead, Event.completesMediaSend,
      Event.opensInput, Event.reportsActive]
    omega
  | responseSendResolved =>
    simp [Event.completesStart, Event.completesRead, Event.completesMediaSend,
      Event.opensInput, Event.reportsActive]
    omega
  | responseSendRejected e =>
    simp [Event.completesStart, Event.completesRead, Event.completesMediaSend,
      Event.opensInput, Event.reportsActive]
    omega

/-- Over a sequence with one activation at a time the total of outstanding
starts, reads and media sends stays at most one. -/
theorem oneActivation_keeps_token (evs : List Event) (t : Tracked)
    (h : oneActivation evs t = true)
    (hinv : t.pendingStarts + t.pendingReads + t.pendingMediaSends ≤ 1) :
    (run evs t).pendingStarts + (run evs t).pendingReads +
      (run evs t).pendingMediaSends ≤ 1 := by
  induction evs generalizing t with
  | nil => simpa [run] using hinv
  | cons ev evs ih =>
    simp only [oneActivation, Bool.and_eq_true, Bool.or_eq_true, Bool.not_eq_true',
      decide_eq_true_eq] at h
    obtain ⟨⟨he, ho⟩, hrest⟩ := h
    have hstep := apply_keeps_token ev t he
      (by
        intro hopen
        rcases ho with ho | ho
        · rw [hopen] at ho
          exact absurd ho (by decide)
        · exact ho)
      hinv
    have hrun : run (ev :: evs) t = run evs (apply ev t) := by simp [run]
    rw [hrun]
    exact ih (apply ev t) hrest hstep

/-- An event issues one driver read when it is a start completion or a media
send completion during which the driver reports active, and none otherwise. -/
theorem readsIssued_eq (ev : Event) (s : State) :
    readsIssued ev s = if ev.reportsActive = true then 1 else 0 := by
  obtain ⟨session, tr⟩ := s
  cases ev with
  | inbound m =>
    cases m with
    | avInputOpenRequest openFlag anc ec max_unacked =>
      cases openFlag <;>
        simp [readsIssued, body, handle, onAVInputOpenRequest, emit, Event.reportsActive,
          List.count_cons]
    | _ =>
      simp [readsIssued, body, handle, onChannelOpenRequest, onAVChannelSetupRequest,
        onAVMediaAckIndication, emit, Event.reportsActive, List.count_cons]
  | startResolved isActive =>
    cases isActive <;>
      simp [readsIssued, body, onAudioInputOpenSucceed, readAudioInput, emit,
        Event.reportsActive, List.count_cons]
  | mediaSendResolved isActive =>
    cases isActive <;>
      simp [readsIssued, body, sendResolved, readAudioInput, emit, Event.reportsActive,
        List.count_cons]
  | _ =>
    simp [readsIssued, body, onAudioInputOpenFailed, onAudioInputDataReady,
      onAudioInputReadRejected, sendResolved, sendRejected, onChannelError, emit,
      Event.reportsActive, List.count_cons]

/-- C15, the claim fails: a second input-open request with `open = true` whose
start also resolves, while the read of the first activation is still
outstanding, makes the service issue a second driver read; every completion in
the sequence has an operation outstanding. -/
theorem second_activation_second_read :
    wellFormed
      [Event.inbound (Inbound.avInputOpenRequest true false false 1),
       Event.startResolved true,
       Event.inbound (Inbound.avInputOpenRequest true false false 1),
       Event.startResolved true] Tracked.fresh = true ∧
    (run
      [Event.inbound (Inbound.avInputOpenRequest true false false 1),
       Event.startResolved true,
       Event.inbound (Inbound.avInputOpenRequest true false false 1),
       Event.startResolved true] Tracked.fresh).pendingReads = 2 ∧
    (run
      [Event.inbound (Inbound.avInputOpenRequest true false false 1),
       Event.startResolved true,
       Event.inbound (Inbound.avInputOpenRequest true false false 1),
       Event.startResolved true] Tracked.fresh).state.trace =
      [Action.log LogMsg.inputOpenRequest, Action.audioInputStart, Action.receive,
       Action.log LogMsg.inputOpenSucceed,
       Action.send (Message.avInputOpenResponse 0 0) Then.nothing,
       Action.audioInputIsActive, Action.audioInputRead,
       Action.log LogMsg.inputOpenRequest, Action.audioInputStart, Action.receive,
       Action.log LogMsg.inputOpenSucceed,
       Action.send (Message.avInputOpenResponse 0 0) Then.nothing,
       Action.audioInputIsActive, Action.audioInputRead] := by
  refine ⟨?_, ?_, ?_⟩ <;> decide

/-- C15 as amended: over every sequence of events in which each input-open
request with `open = true` arrives while no driver start, driver read or media
indication send is outstanding, at most one driver read is outstanding (indeed
at most one of the three kinds of operation).  In the state reached, an event
issues a driver read only when it is a completion during which the driver
reports active, and then exactly one; and while a media indication send is
outstanding the only event that can issue a read is the successful completion
of that send. -/
theorem one_activation_single_read (evs : List Event)
    (h : oneActivation evs Tracked.fresh = true) :
    (run evs Tracked.fresh).pendingReads ≤ 1 ∧
    (run evs Tracked.fresh).pendingStarts + (run evs Tracked.fresh).pendingReads +
      (run evs Tracked.fresh).pendingMediaSends ≤ 1 ∧
    (∀ ev : Event,
      readsIssued ev (run evs Tracked.fresh).state =
        if ev.reportsActive = true then 1 else 0) ∧
    (∀ ev : Event,
      0 < (run evs Tracked.fresh).pendingMediaSends →
      enabled ev (run evs Tracked.fresh) = true →
      0 < readsIssued ev (run evs Tracked.fresh).state →
      ev = Event.mediaSendResolved true) := by
  have htoken := oneActivation_keeps_token evs Tracked.fresh h (by decide)
  refine ⟨by omega, htoken, fun ev => readsIssued_eq ev _, ?_⟩
  intro ev hm he hr
  rw [readsIssued_eq] at hr
  cases ev with
  | startResolved isActive =>
    have hp : 0 < (run evs Tracked.fresh).pendingStarts := by
      simpa [enabled, Event.completesStart, Event.completesRead,
        Event.completesMediaSend] using he
    omega
  | mediaSendResolved isActive =>
    cases isActive
    · simp [Event.reportsActive] at hr
    · rfl
  | _ => simp [Event.reportsActive] at hr

/-- Witness of the amended C15: one activation, a read that delivers data, and
the media indication send that resolves. -/
theorem one_activation_single_read_witness :
    oneActivation
      [Event.inbound (Inbound.avInputOpenRequest true false false 1),
       Event.startResolved true, Event.readResolved [1, 2] 100,
       Event.mediaSendResolved true] Tracked.fresh = true ∧
    (run
      [Event.inbound (Inbound.avInputOpenRequest true false false 1),
       Event.startResolved true, Event.readResolved [1, 2] 100,
       Event.mediaSendResolved true] Tracked.fresh).pendingReads ≤ 1 :=
  ⟨by decide,
   (one_activation_single_read
      [Event.inbound (Inbound.avInputOpenRequest true false false 1),
       Event.startResolved true, Event.readResolved [1, 2] 100,
       Event.mediaSendResolved true] (by decide)).1⟩

end AudioInputService

/-! ## Theorems: Pinger and App, continued -/

namespace Pinger

/-- C17: with no promise stored, `cancel()` sets the flag and cancels the
timer; it settles no promise and leaves both counters as they are, and a timer
callback that follows returns at once.  The next `ping` is accepted as without
the cancel: it clears the flag, counts the ping, stores the promise and arms
the timer, and the expiry that follows settles it in the same way, for every
completion status of the timer. -/
theorem cancel_without_promise_is_noop :
    (∀ (c : Bool) (p q : Int) (tr : List Action),
      cancel ⟨c, none, p, q, tr⟩ = ⟨true, none, p, q, tr ++ [Action.timerCancel]⟩) ∧
    (∀ (error : AsioError) (c : Bool) (p q : Int) (tr : List Action),
      onTimerExceeded error (cancel ⟨c, none, p, q, tr⟩) = cancel ⟨c, none, p, q, tr⟩) ∧
    (∀ (promise : Promise) (c : Bool) (p q : Int) (tr : List Action),
      ping promise (cancel ⟨c, none, p, q, tr⟩) =
        ⟨false, some promise, p + 1, q,
          tr ++ [Action.timerCancel, Action.timerExpiresFromNow, Action.timerAsyncWait]⟩ ∧
      ping promise ⟨c, none, p, q, tr⟩ =
        ⟨false, some promise, p + 1, q,
          tr ++ [Action.timerExpiresFromNow, Action.timerAsyncWait]⟩) ∧
    (∀ (error : AsioError) (promise : Promise) (c : Bool) (p q : Int) (tr : List Action),
      ∃ settled : Action,
        settled =
          (if error = AsioError.operation_aborted then
            Action.reject promise (Error.ofCode ErrorCode.OPERATION_ABORTED)
           else if p + 1 - q > 1 then Action.reject promise Error.default
           else Action.resolve promise) ∧
        onTimerExceeded error (ping promise (cancel ⟨c, none, p, q, tr⟩)) =
          ⟨false, none, p + 1, q,
            tr ++ [Action.timerCancel, Action.timerExpiresFromNow, Action.timerAsyncWait,
                   settled]⟩ ∧
        onTimerExceeded error (ping promise ⟨c, none, p, q, tr⟩) =
          ⟨false, none, p + 1, q,
            tr ++ [Action.timerExpiresFromNow, Action.timerAsyncWait, settled]⟩) := by
  refine ⟨?_, ?_, ?_, ?_⟩
  · intro c p q tr
    rfl
  · intro error c p q tr
    rfl
  · intro promise c p q tr
    constructor <;> simp [ping, cancel]
  · intro error promise c p q tr
    refine ⟨_, rfl, ?_, ?_⟩
    · by_cases he : error = AsioError.operation_aborted
      · simp [onTimerExceeded, ping, cancel, he]
      · by_cases hd : p + 1 - q > 1
        · simp [onTimerExceeded, ping, cancel, he, hd]
        · simp [onTimerExceeded, ping, cancel, he, hd]
    · by_cases he : error = AsioError.operation_aborted
      · simp [onTimerExceeded, ping, he]
      · by_cases hd : p + 1 - q > 1
        · simp [onTimerExceeded, ping, he, hd]
        · simp [onTimerExceeded, ping, he, hd]

/-- C19, the code as written: on a fresh watchdog, `ping 1`, `ping 2` and a
timer expiry settle promise 1 twice, first rejected with OPERATION_IN_PROGRESS
by the second ping and then resolved by the expiry, and never settle
promise 2. -/
theorem promise_settled_twice :
    (onTimerExceeded AsioError.success (ping 2 (ping 1 init))).trace =
      [Action.timerExpiresFromNow, Action.timerAsyncWait,
       Action.reject 1 (Error.ofCode ErrorCode.OPERATION_IN_PROGRESS),
       Action.resolve 1] ∧
    settlements 1 (onTimerExceeded AsioError.success (ping 2 (ping 1 init))).trace =
      [Action.reject 1 (Error.ofCode ErrorCode.OPERATION_IN_PROGRESS),
       Action.resolve 1] ∧
    settlements 2 (onTimerExceeded AsioError.success (ping 2 (ping 1 init))).trace = [] := by
  refine ⟨?_, ?_, ?_⟩ <;> decide

end Pinger

namespace App

/-- C18, the code as written: `onAndroidAutoQuit()` dereferences the entity
pointer without testing it.  After a session is built and `stop()` has released
it, a session-ended notification finds the pointer empty and the body has no
defined result; the same holds for a second notification after the first one
released the session. -/
theorem quit_after_stop_dereferences_empty :
    (stop (start 7 (Build.ok 1) init)).androidAutoEntity_ = none ∧
    onAndroidAutoQuit (stop (start 7 (Build.ok 1) init)) = none ∧
    (run [Event.start 7 (Build.ok 1), Event.stop, Event.onAndroidAutoQuit] init).2 = false ∧
    (run [Event.start 7 (Build.ok 1), Event.onAndroidAutoQuit, Event.onAndroidAutoQuit]
      init).2 = false := by
  refine ⟨?_, ?_, ?_, ?_⟩ <;> decide

end App

end OpenAuto
